import Mathlib

/-!
Verification of the HVCR synthetic-scenario analysis and QA-synthesis engine
(`src/data/synthetic/scripts/`): a shallow embedding, in Lean, of the kinematic
primitives, the role identifier (`base_generator.py`), the overdetermination,
switch and bogus scenario analyzers and event extractors, and the six scenario
generators' `generate_qa_templates` / `generate_cr_templates` functions
(`overdetermination.py`, `switch.py`, `bogus.py`, `early.py`, `late.py`,
`double.py`), followed by theorems settling the spec's claims about them.

Number representation: the Python code computes with floats; the embedding uses
exact rational arithmetic (`ℚ`).  Every threshold comparison in the source is of
the form `sqrt e > c` or `sqrt e < c` with `e ≥ 0`, `c > 0`; the embedding
stores the squared quantity and compares against `c^2`, which is algebraically
equivalent over the reals (the bridge for the `moving_towards` primitive is
proved as the claim-10 theorem).  Real-valued event payloads that the code only
logs and never reads again (`distance_remaining`, `speed_change`,
`direction_change`, all square-root valued) are omitted from the `Event` record.
Python's `random.sample(options, len(options))` is modelled by explicit shuffle
oracles (functions `List String → List String`), quantified over in theorems;
`list.index` (which raises `ValueError` when absent) is modelled by
`Option`-returning lookup, so a QA synthesis that would raise returns `none`.
Python's `list(set(xs))` over the small nonnegative object ids of this data set
(CPython iterates such a set in increasing value order, since `hash(i) = i`
indexes the table directly) is modelled as sorted deduplication.
-/

/-- A 3-d vector of rationals: a `location` or `velocity` triple. -/
structure Vec3 where
  x : ℚ
  y : ℚ
  z : ℚ
deriving DecidableEq

/-- Per-object state inside one trajectory frame (`frame['objects'][k]`):
orientation and angular velocity are never read by the analyzed code and are
omitted. -/
structure ObjState where
  object_id : Nat
  location : Vec3
  velocity : Vec3
deriving DecidableEq

/-- One frame of `motion_trajectory`. -/
structure Frame where
  objects : List ObjState
deriving DecidableEq

/-- One record of the `collision` list. -/
structure Collision where
  object_ids : List Nat
  frame_id : Nat
  location : Vec3
deriving DecidableEq

/-- One record of `object_property`. -/
structure ObjProperty where
  object_id : Nat
  color : String
  material : String
  shape : String
deriving DecidableEq

/-- The per-scene simulation record consumed by analyzers and generators. -/
structure SimData where
  object_property : List ObjProperty
  motion_trajectory : List Frame
  collision : List Collision
deriving DecidableEq

/-- `SettingType` of `base_generator.py`: the closed enumeration of distractor
settings.  The Python `setting` parameter may also be `None`; that is modelled
as `Option SettingType`. -/
inductive SettingType where
  | add_one_static
  | add_two_static
  | add_one_moving
  | add_two_moving
deriving DecidableEq

/-- `_calculate_distance(pos1, pos2)` squared: the source returns
`sqrt` of this sum. -/
def calculateDistanceSq (p q : Vec3) : ℚ :=
  (p.x - q.x) ^ 2 + (p.y - q.y) ^ 2 + (p.z - q.z) ^ 2

/-- `_calculate_velocity_magnitude(velocity)` squared: the source returns
`sqrt` of this sum. -/
def velocityMagnitudeSq (v : Vec3) : ℚ := v.x ^ 2 + v.y ^ 2 + v.z ^ 2

/-- Componentwise difference `b - a` (the displacement `direction_to_obj2`). -/
def vecSub (b a : Vec3) : Vec3 := ⟨b.x - a.x, b.y - a.y, b.z - a.z⟩

/-- Dot product of two 3-d vectors. -/
def dot3 (a b : Vec3) : ℚ := a.x * b.x + a.y * b.y + a.z * b.z

/-- `_is_moving_towards(obj1_pos, obj1_vel, obj2_pos, obj2_vel)`.  The source
normalizes `obj2_pos - obj1_pos`, returns `False` when its magnitude is zero,
else tests `dot(obj1_vel, unit) > 0.1`.  Over the reals
`dot > 0.1 * sqrt(normSq)` with `normSq > 0` holds iff
`0 < dot ∧ normSq < 100 * dot^2`; the embedding uses the square-free right-hand
side (`obj2_vel` is accepted and ignored exactly as in the source). -/
def isMovingTowards (obj1_pos obj1_vel obj2_pos _obj2_vel : Vec3) : Bool :=
  let d := vecSub obj2_pos obj1_pos
  if velocityMagnitudeSq d = 0 then false
  else decide (0 < dot3 obj1_vel d ∧ velocityMagnitudeSq d < 100 * (dot3 obj1_vel d) ^ 2)

/-- `_get_object_description(obj_id, objects)`. -/
def getObjectDescription (obj_id : Nat) (objects : List ObjProperty) : String :=
  match objects.find? (fun o => o.object_id == obj_id) with
  | some o => o.color ++ " " ++ o.material ++ " " ++ o.shape
  | none => "object " ++ toString obj_id

/-- The result record of `_identify_objects_by_setting`. -/
structure ObjectInfo where
  static_objects : List Nat
  moving_objects : List Nat
  added_static : List Nat
  added_moving : List Nat
deriving DecidableEq

/-- The frame-zero classification loop of `_identify_objects_by_setting`:
ids with velocity magnitude `< 0.01` in order, and the remaining ids in
order. -/
def classifyFirstFrame (first_frame : List ObjState) : List Nat × List Nat :=
  ((first_frame.filter (fun o => decide (velocityMagnitudeSq o.velocity < 1/10000))).map
      (fun o => o.object_id),
   (first_frame.filter (fun o => !decide (velocityMagnitudeSq o.velocity < 1/10000))).map
      (fun o => o.object_id))

/-- `_identify_objects_by_setting(self, trajectory, setting)`, with the
generator's `self.scenario_name` passed explicitly as `scen`.  The source
indexes `trajectory[0]`; the embedding reads the head with an empty-frame
default (theorems about it assume a nonempty trajectory). -/
def identifyObjectsBySetting (scen : String) (trajectory : List Frame)
    (setting : Option SettingType) : ObjectInfo :=
  let first_frame := (trajectory.headD ⟨[]⟩).objects
  let static_objects := (classifyFirstFrame first_frame).1
  let moving_objects := (classifyFirstFrame first_frame).2
  let result : ObjectInfo :=
    ⟨static_objects, moving_objects, [], []⟩
  match setting with
  | some SettingType.add_one_static =>
    if scen = "bogus" ∨ scen = "early" then
      if 3 ≤ static_objects.length ∧ 2 ≤ moving_objects.length then
        { result with added_static := (static_objects.drop 2).take 1,
                      static_objects := static_objects.take 2 }
      else result
    else
      if 2 ≤ static_objects.length ∧ 2 ≤ moving_objects.length then
        { result with added_static := (static_objects.drop 1).take 1,
                      static_objects := static_objects.take 1 }
      else result
  | some SettingType.add_two_static =>
    if scen = "bogus" ∨ scen = "early" then
      if 4 ≤ static_objects.length ∧ 2 ≤ moving_objects.length then
        { result with added_static := (static_objects.drop 2).take 2,
                      static_objects := static_objects.take 2 }
      else result
    else
      if 3 ≤ static_objects.length ∧ 2 ≤ moving_objects.length then
        { result with added_static := (static_objects.drop 1).take 2,
                      static_objects := static_objects.take 1 }
      else result
  | some SettingType.add_one_moving =>
    if scen = "double" then
      if 1 ≤ static_objects.length ∧ 4 ≤ moving_objects.length then
        { result with added_moving := (moving_objects.drop 3).take 1,
                      moving_objects := moving_objects.take 3 }
      else result
    else
      if 1 ≤ static_objects.length ∧ 3 ≤ moving_objects.length then
        { result with added_moving := (moving_objects.drop 2).take 1,
                      moving_objects := moving_objects.take 2 }
      else result
  | some SettingType.add_two_moving =>
    if scen = "double" then
      if 1 ≤ static_objects.length ∧ 5 ≤ moving_objects.length then
        { result with added_moving := (moving_objects.drop 3).take 2,
                      moving_objects := moving_objects.take 3 }
      else result
    else
      if 1 ≤ static_objects.length ∧ 4 ≤ moving_objects.length then
        { result with added_moving := (moving_objects.drop 2).take 2,
                      moving_objects := moving_objects.take 2 }
      else result
  | none => result

/-- Python `frame_objects = {obj['object_id']: obj for obj in frame}` lookup:
on duplicate ids the dict keeps the last occurrence. -/
def lookupObj (objs : List ObjState) (i : Nat) : Option ObjState :=
  objs.reverse.find? (fun o => o.object_id == i)

/-- Insertion into a sorted list of naturals. -/
def insertSorted (a : Nat) : List Nat → List Nat
  | [] => [a]
  | b :: bs => if a ≤ b then a :: b :: bs else b :: insertSorted a bs

/-- Insertion sort on naturals: models Python's in-place `list.sort()` on the
answer-index lists. -/
def sortNat (l : List Nat) : List Nat := l.foldr insertSorted []

/-- Python `list(set(xs))` for this data set's small nonnegative ids: CPython
iterates such a set in increasing value order (`hash(i) = i` indexes the hash
table directly for ids below the table size), so the model is the sorted list
of distinct elements. -/
def pySetList (xs : List Nat) : List Nat := sortNat xs.dedup

/-- Python `list.index(a)` restricted to success: the first index holding `a`,
or `none` where the source would raise `ValueError`. -/
def listIndex (l : List String) (a : String) : Option Nat :=
  match l with
  | [] => none
  | b :: bs => if b = a then some 0 else (listIndex bs a).map (· + 1)

/-- `[shuffled_options.index(ans) for ans in correct_answers]`: `none` when any
lookup would raise. -/
def indexList (shuffled : List String) : List String → Option (List Nat)
  | [] => some []
  | a :: rest =>
    match listIndex shuffled a, indexList shuffled rest with
    | some i, some is => some (i :: is)
    | _, _ => none

/-- An entry of the analyzers' event log.  The Python event dicts carry
type-specific key sets; unused keys are defaulted here.  Square-root-valued
numeric payloads (`distance_remaining`, `speed_change`, `direction_change`)
are log-only data never read downstream and are omitted. -/
structure Event where
  etype : String
  frame : Nat
  subject : Option Nat := none
  target : Option Nat := none
  subjects : List Nat := []
  location : Option Vec3 := none
  description : String
deriving DecidableEq

/-- A `moving_towards` event as appended by every analyzer. -/
def movingTowardsEvent (i subj targ : Nat) : Event :=
  { etype := "moving_towards", frame := i, subject := some subj, target := some targ,
    description := "Object " ++ toString subj ++ " is moving towards object " ++ toString targ }

/-- A `start_moving` event. -/
def startMovingEvent (i subj : Nat) : Event :=
  { etype := "start_moving", frame := i, subject := some subj,
    description := "Object " ++ toString subj ++ " starts moving" }

/-- A `speed_increase` event (`switch.py`). -/
def speedIncreaseEvent (i subj : Nat) : Event :=
  { etype := "speed_increase", frame := i, subject := some subj,
    description := "Object " ++ toString subj ++ " speeds up after being hit" }

/-- An `insufficient_momentum` event (`bogus.py`). -/
def insufficientMomentumEvent (i m2 s2 : Nat) : Event :=
  { etype := "insufficient_momentum", frame := i, subject := some m2,
    description := "Object " ++ toString m2 ++ " stops before reaching object " ++
      toString s2 ++ " due to insufficient momentum" }

/-- Python `str` of a list of ids, as it appears inside collision-event
descriptions: `[1, 0]`. -/
def fmtIdList (l : List Nat) : String :=
  "[" ++ String.intercalate ", " (l.map toString) ++ "]"

/-- The collision event appended, unfiltered, for each input collision. -/
def collisionEvent (c : Collision) : Event :=
  { etype := "collision", frame := c.frame_id, subjects := c.object_ids,
    location := some c.location,
    description := "Collision between objects " ++ fmtIdList c.object_ids }

/-- The shared per-frame approach check: when both roles are bound and present
in the frame and `_is_moving_towards` holds, one `moving_towards` event. -/
def movingTowardsCheck (objs : List ObjState) (i : Nat) (subj targ : Option Nat) : List Event :=
  match subj, targ with
  | some a, some b =>
    match lookupObj objs a, lookupObj objs b with
    | some ao, some bo =>
      if isMovingTowards ao.location ao.velocity bo.location bo.velocity then
        [movingTowardsEvent i a b]
      else []
    | _, _ => []
  | _, _ => []

/-- The shared motion-onset check: speed `> 0.1` now, `< 0.01` in the previous
frame. -/
def startMovingCheck (trajectory : List Frame) (objs : List ObjState) (i : Nat)
    (s : Option Nat) : List Event :=
  match s with
  | some sid =>
    match lookupObj objs sid with
    | some so =>
      if velocityMagnitudeSq so.velocity > 1/100 ∧ 0 < i then
        match lookupObj ((trajectory.getD (i - 1) ⟨[]⟩).objects) sid with
        | some po =>
          if velocityMagnitudeSq po.velocity < 1/10000 then [startMovingEvent i sid] else []
        | none => []
      else []
    | none => []
  | none => []

/-- One frame of `_analyze_overdetermination_events`: M1-towards-S,
M2-towards-S, S-starts-moving checks, in source order. -/
def overdetFrameEvents (trajectory : List Frame) (M1 M2 S : Option Nat) (i : Nat) : List Event :=
  let objs := (trajectory.getD i ⟨[]⟩).objects
  movingTowardsCheck objs i M1 S ++ movingTowardsCheck objs i M2 S ++
    startMovingCheck trajectory objs i S

/-- The frame-scan portion of `_analyze_overdetermination_events`. -/
def overdetScanEvents (trajectory : List Frame) (M1 M2 S : Option Nat) : List Event :=
  (List.range trajectory.length).flatMap (overdetFrameEvents trajectory M1 M2 S)

/-- `_analyze_overdetermination_events`: the frame scan followed by the
appended collision events. -/
def overdetEvents (data : SimData) (M1 M2 S : Option Nat) : List Event :=
  overdetScanEvents data.motion_trajectory M1 M2 S ++ data.collision.map collisionEvent

/-- The analysis record built by `overdetermination.py`'s `analyze_scenario`. -/
structure OverdetAnalysis where
  M1 : Option Nat
  M2 : Option Nat
  S : Option Nat
  events : List Event
  collision_info : List Collision
  simultaneous_collision : Bool
  added_static : List Nat
  added_moving : List Nat
deriving DecidableEq

/-- `OverdeterminationScenarioQAGenerator.analyze_scenario(data, setting)`.
Note the source runs its collision-driven rebinding of `M1`/`M2`
unconditionally, also when a setting was supplied. -/
def overdetAnalyze (data : SimData) (setting : Option SettingType) : OverdetAnalysis :=
  let trajectory := data.motion_trajectory
  let collisions := data.collision
  let object_info := identifyObjectsBySetting "overdetermination" trajectory setting
  let S0 : Option Nat :=
    if 1 ≤ object_info.static_objects.length then object_info.static_objects[0]? else none
  let M10 : Option Nat :=
    if 2 ≤ object_info.moving_objects.length then object_info.moving_objects[0]? else none
  let M20 : Option Nat :=
    if 2 ≤ object_info.moving_objects.length then object_info.moving_objects[1]? else none
  match S0 with
  | none =>
    { M1 := M10, M2 := M20, S := none, events := [], collision_info := collisions,
      simultaneous_collision := false, added_static := object_info.added_static,
      added_moving := object_info.added_moving }
  | some s =>
    let collision_objects :=
      pySetList (((collisions.map (fun c => c.object_ids)).flatten).filter
        (fun j => decide (j ≠ s)))
    let collision_frames := collisions.map (fun c => c.frame_id)
    let M1 := if 2 ≤ collision_objects.length then collision_objects[0]? else M10
    let M2 := if 2 ≤ collision_objects.length then collision_objects[1]? else M20
    let simultaneous :=
      if 2 ≤ collision_objects.length then decide (collision_frames.dedup.length ≤ 2)
      else false
    { M1 := M1, M2 := M2, S := some s, events := overdetEvents data M1 M2 (some s),
      collision_info := collisions, simultaneous_collision := simultaneous,
      added_static := object_info.added_static, added_moving := object_info.added_moving }

/-- Stable insertion into a frame-sorted collision list (later-inserted equal
keys stay behind earlier ones, as Python's stable `sorted`). -/
def insertColl (c : Collision) : List Collision → List Collision
  | [] => [c]
  | d :: ds => if c.frame_id < d.frame_id then c :: d :: ds else d :: insertColl c ds

/-- `sorted(collisions, key=lambda x: x['frame_id'])`. -/
def sortCollisionsByFrame (cs : List Collision) : List Collision :=
  cs.foldl (fun acc c => insertColl c acc) []

/-- The analysis record built by `switch.py`'s `analyze_scenario`. -/
structure SwitchAnalysis where
  M1 : Option Nat
  M2 : Option Nat
  S : Option Nat
  events : List Event
  collision_info : List Collision
  collision_sequence : List Collision
  added_static : List Nat
  added_moving : List Nat
deriving DecidableEq

/-- One step of `_analyze_switch_events`' frame loop, threading the
one-shot `m1_speed_increased` latch (the `speed_increase` test
`current > prev * 1.5` is squared: `cSq > (9/4) pSq`). -/
def switchFrameStep (trajectory : List Frame) (M1 M2 S : Option Nat)
    (acc : List Event × Bool) (i : Nat) : List Event × Bool :=
  let objs := (trajectory.getD i ⟨[]⟩).objects
  let ev1 := movingTowardsCheck objs i M1 S
  let ev2 := movingTowardsCheck objs i M2 M1
  let st :=
    match M1 with
    | some m1 =>
      if 0 < i then
        match lookupObj objs m1 with
        | some mo =>
          match lookupObj ((trajectory.getD (i - 1) ⟨[]⟩).objects) m1 with
          | some po =>
            if velocityMagnitudeSq mo.velocity > (9/4) * velocityMagnitudeSq po.velocity ∧
                ¬ acc.2 then
              ([speedIncreaseEvent i m1], true)
            else ([], acc.2)
          | none => ([], acc.2)
        | none => ([], acc.2)
      else ([], acc.2)
    | none => ([], acc.2)
  let ev4 := startMovingCheck trajectory objs i S
  (acc.1 ++ ev1 ++ ev2 ++ st.1 ++ ev4, st.2)

/-- The frame-scan portion of `_analyze_switch_events`. -/
def switchScanEvents (trajectory : List Frame) (M1 M2 S : Option Nat) : List Event :=
  ((List.range trajectory.length).foldl (switchFrameStep trajectory M1 M2 S) ([], false)).1

/-- `_analyze_switch_events`: the frame scan followed by the appended
collision events. -/
def switchEvents (data : SimData) (M1 M2 S : Option Nat) : List Event :=
  switchScanEvents data.motion_trajectory M1 M2 S ++ data.collision.map collisionEvent

/-- `SwitchScenarioQAGenerator.analyze_scenario(data, setting)`. -/
def switchAnalyze (data : SimData) (setting : Option SettingType) : SwitchAnalysis :=
  let trajectory := data.motion_trajectory
  let collisions := data.collision
  match setting with
  | some st =>
    let object_info := identifyObjectsBySetting "switch" trajectory (some st)
    let S :=
      if 1 ≤ object_info.static_objects.length then object_info.static_objects[0]? else none
    let M1 :=
      if 2 ≤ object_info.moving_objects.length then object_info.moving_objects[0]? else none
    let M2 :=
      if 2 ≤ object_info.moving_objects.length then object_info.moving_objects[1]? else none
    { M1 := M1, M2 := M2, S := S, events := switchEvents data M1 M2 S,
      collision_info := collisions, collision_sequence := [],
      added_static := object_info.added_static, added_moving := object_info.added_moving }
  | none =>
    let first_frame := (trajectory.headD ⟨[]⟩).objects
    let S := (first_frame.find?
        (fun o => decide (velocityMagnitudeSq o.velocity < 1/10000))).map
      (fun o => o.object_id)
    match S with
    | none =>
      { M1 := none, M2 := none, S := none, events := [], collision_info := collisions,
        collision_sequence := [], added_static := [], added_moving := [] }
    | some s =>
      let collision_sequence := sortCollisionsByFrame collisions
      let roles : Option Nat × Option Nat :=
        if 2 ≤ collision_sequence.length then
          let first_c := collision_sequence.getD 0 ⟨[], 0, ⟨0, 0, 0⟩⟩
          let second_c := collision_sequence.getD 1 ⟨[], 0, ⟨0, 0, 0⟩⟩
          let M1 := second_c.object_ids.find? (fun j => decide (j ≠ s))
          let M2 := first_c.object_ids.find? (fun j => decide (some j ≠ M1))
          (M1, M2)
        else (none, none)
      { M1 := roles.1, M2 := roles.2, S := some s,
        events := switchEvents data roles.1 roles.2 (some s),
        collision_info := collisions, collision_sequence := collision_sequence,
        added_static := [], added_moving := [] }

/-- The analysis record built by `bogus.py`'s `analyze_scenario`. -/
structure BogusAnalysis where
  M1 : Option Nat
  M2 : Option Nat
  S1 : Option Nat
  S2 : Option Nat
  events : List Event
  collision_info : List Collision
  collinear_objects : List Nat
  m2_insufficient_momentum : Bool
  added_static : List Nat
  added_moving : List Nat
deriving DecidableEq

/-- The collinearity half of `_analyze_collinearity_and_momentum`: the 2-d
cross product of `s2 - m2` and `s1 - s2` at frame zero, `|cross| < 0.5`
(exact, no square root) with both displacement norms positive. -/
def bogusCollinearity (trajectory : List Frame) (M2 S1 S2 : Nat) : List Nat :=
  let first_frame := (trajectory.headD ⟨[]⟩).objects
  match lookupObj first_frame M2, lookupObj first_frame S1, lookupObj first_frame S2 with
  | some m2o, some s1o, some s2o =>
    let v1x := s2o.location.x - m2o.location.x
    let v1y := s2o.location.y - m2o.location.y
    let v2x := s1o.location.x - s2o.location.x
    let v2y := s1o.location.y - s2o.location.y
    if 0 < v1x ^ 2 + v1y ^ 2 ∧ 0 < v2x ^ 2 + v2y ^ 2 then
      if |v1x * v2y - v1y * v2x| < 1/2 then [M2, S2, S1] else []
    else []
  | _, _, _ => []

/-- The momentum half of `_analyze_collinearity_and_momentum`: one pass over
the trajectory carrying the minimum squared `M2`–`S2` distance (`none` is the
initial `float('inf')`) and the squared `M2` speed of the last frame where
both appear (initially `0`). -/
def bogusMomentumScan (trajectory : List Frame) (M2 S2 : Nat) : Option ℚ × ℚ :=
  trajectory.foldl
    (fun acc frame =>
      match lookupObj frame.objects M2, lookupObj frame.objects S2 with
      | some m2o, some s2o =>
        let dSq := calculateDistanceSq m2o.location s2o.location
        (some (match acc.1 with | none => dSq | some m => min m dSq),
         velocityMagnitudeSq m2o.velocity)
      | _, _ => acc)
    (none, 0)

/-- `_analyze_collinearity_and_momentum`: returns the `collinear_objects` and
`m2_insufficient_momentum` fields (their defaults when a role is unbound,
mirroring the source's early `return`).  `min_distance > 0.5` becomes
`minSq > 1/4` (vacuously true for the initial infinity), `final < 0.1`
becomes `finalSq < 1/100`. -/
def analyzeCollinearityAndMomentum (trajectory : List Frame)
    (M2 S1 S2 : Option Nat) : List Nat × Bool :=
  match M2, S1, S2 with
  | some m2, some s1, some s2 =>
    let collinear := bogusCollinearity trajectory m2 s1 s2
    let scan := bogusMomentumScan trajectory m2 s2
    let flag := (match scan.1 with
      | none => true
      | some q => decide (1/4 < q)) && decide (scan.2 < 1/100)
    (collinear, flag)
  | _, _, _ => ([], false)

/-- One step of `_analyze_bogus_events`' frame loop, threading the one-shot
`m2_stopped` latch: M1-towards-S2, M2-towards-S2, the insufficient-momentum
check (`speed < 0.05` i.e. squared `< 1/400`, distance `> 0.3` i.e. squared
`> 9/100`), then S2-starts-moving, in source order. -/
def bogusFrameStep (trajectory : List Frame) (M1 M2 S2 : Option Nat)
    (acc : List Event × Bool) (i : Nat) : List Event × Bool :=
  let objs := (trajectory.getD i ⟨[]⟩).objects
  let ev1 := movingTowardsCheck objs i M1 S2
  let ev2 := movingTowardsCheck objs i M2 S2
  let st :=
    match M2 with
    | some m2 =>
      match lookupObj objs m2 with
      | some m2o =>
        if ¬ acc.2 then
          if velocityMagnitudeSq m2o.velocity < 1/400 then
            match S2 with
            | some s2 =>
              match lookupObj objs s2 with
              | some s2o =>
                if 9/100 < calculateDistanceSq m2o.location s2o.location then
                  ([insufficientMomentumEvent i m2 s2], true)
                else ([], acc.2)
              | none => ([], acc.2)
            | none => ([], acc.2)
          else ([], acc.2)
        else ([], acc.2)
      | none => ([], acc.2)
    | none => ([], acc.2)
  let ev4 := startMovingCheck trajectory objs i S2
  (acc.1 ++ ev1 ++ ev2 ++ st.1 ++ ev4, st.2)

/-- The frame-scan portion of `_analyze_bogus_events`. -/
def bogusScanEvents (trajectory : List Frame) (M1 M2 S2 : Option Nat) : List Event :=
  ((List.range trajectory.length).foldl (bogusFrameStep trajectory M1 M2 S2) ([], false)).1

/-- `_analyze_bogus_events`: the frame scan followed by the appended collision
events (`S1` is received but unused, as in the source). -/
def bogusEvents (data : SimData) (M1 M2 _S1 S2 : Option Nat) : List Event :=
  bogusScanEvents data.motion_trajectory M1 M2 S2 ++ data.collision.map collisionEvent

/-- `BogusScenarioQAGenerator.analyze_scenario(data, setting)`. -/
def bogusAnalyze (data : SimData) (setting : Option SettingType) : BogusAnalysis :=
  let trajectory := data.motion_trajectory
  let collisions := data.collision
  match setting with
  | some st =>
    let object_info := identifyObjectsBySetting "bogus" trajectory (some st)
    let S1 :=
      if 2 ≤ object_info.static_objects.length then object_info.static_objects[0]? else none
    let S2 :=
      if 2 ≤ object_info.static_objects.length then object_info.static_objects[1]? else none
    let M1 :=
      if 2 ≤ object_info.moving_objects.length then object_info.moving_objects[0]? else none
    let M2 :=
      if 2 ≤ object_info.moving_objects.length then object_info.moving_objects[1]? else none
    let cm := analyzeCollinearityAndMomentum trajectory M2 S1 S2
    { M1 := M1, M2 := M2, S1 := S1, S2 := S2, events := bogusEvents data M1 M2 S1 S2,
      collision_info := collisions, collinear_objects := cm.1,
      m2_insufficient_momentum := cm.2, added_static := object_info.added_static,
      added_moving := object_info.added_moving }
  | none =>
    let first_frame := (trajectory.headD ⟨[]⟩).objects
    let static_objects := (classifyFirstFrame first_frame).1
    let moving_objects := (classifyFirstFrame first_frame).2
    if static_objects.length < 2 ∨ moving_objects.length < 2 then
      { M1 := none, M2 := none, S1 := none, S2 := none, events := [],
        collision_info := collisions, collinear_objects := [],
        m2_insufficient_momentum := false, added_static := [], added_moving := [] }
    else
      let S2 := match collisions with
        | [] => none
        | c :: _ => c.object_ids.find? (fun j => decide (j ∈ static_objects))
      let M1 := match collisions with
        | [] => none
        | c :: _ => c.object_ids.find? (fun j => decide (j ∈ moving_objects))
      let S1 := static_objects.find? (fun j => decide (some j ≠ S2))
      let M2 := moving_objects.find? (fun j => decide (some j ≠ M1))
      let cm := analyzeCollinearityAndMomentum trajectory M2 S1 S2
      { M1 := M1, M2 := M2, S1 := S1, S2 := S2, events := bogusEvents data M1 M2 S1 S2,
        collision_info := collisions, collinear_objects := cm.1,
        m2_insufficient_momentum := cm.2, added_static := [], added_moving := [] }

/-- A QA answer: a yes/no string, a sorted index list, or (for the
actual-cause question) a map from causal-semantics label to sorted index
list, in insertion order HP, BV, DBV, Boc. -/
inductive Answer where
  | yn : String → Answer
  | choice : List Nat → Answer
  | per_def : List (String × List Nat) → Answer
deriving DecidableEq

/-- One synthesized QA pair. -/
structure QAPair where
  question : String
  answer : Answer
  question_type : String
  question_rung : String
  answer_type : String
  options : List String := []
deriving DecidableEq

/-- A yes/no QA pair (question, answer, question type, rung). -/
def ynQA (q a qt rung : String) : QAPair :=
  { question := q, answer := Answer.yn a, question_type := qt, question_rung := rung,
    answer_type := "yes_no" }

/-- The single-answer multiple-choice synthesis step shared by all six
generators: locate each correct answer in the already-shuffled option list,
sort the indices, and emit the pair; `none` where `list.index` would raise. -/
def mkMultiChoice (q qt rung : String) (correct shuffled : List String) : Option QAPair :=
  match indexList shuffled correct with
  | none => none
  | some idxs =>
    some { question := q, answer := Answer.choice (sortNat idxs), question_type := qt,
           question_rung := rung, answer_type := "multi_choice", options := shuffled }

/-- The per-semantics index computation of the actual-cause question:
for each (definition, correct answers) entry, the sorted indices in the
shuffled option list. -/
def indexMapping (shuffled : List String) :
    List (String × List String) → Option (List (String × List Nat))
  | [] => some []
  | (d, cs) :: rest =>
    match indexList shuffled cs, indexMapping shuffled rest with
    | some idxs, some tl => some ((d, sortNat idxs) :: tl)
    | _, _ => none

/-- The actual-cause multiple-choice synthesis step shared by all six
generators. -/
def mkActualCause (q : String) (mapping : List (String × List String))
    (shuffled : List String) : Option QAPair :=
  match indexMapping shuffled mapping with
  | none => none
  | some ans =>
    some { question := q, answer := Answer.per_def ans, question_type := "actual_cause",
           question_rung := "counterfactual", answer_type := "multi_choice",
           options := shuffled }

/-- The distractor description block repeated verbatim at the top of every
`generate_qa_templates` / `generate_cr_templates`: each of the six optional
descriptions is assigned exactly when the current setting matches and the
corresponding added-object list is long enough. -/
structure DistractorDescs where
  as_desc : Option String
  as1_desc : Option String
  as2_desc : Option String
  am_desc : Option String
  am1_desc : Option String
  am2_desc : Option String

/-- Computes the `as_desc` … `am2_desc` locals of the generators. -/
def distractorDescs (st : Option SettingType) (objects : List ObjProperty)
    (added_static added_moving : List Nat) : DistractorDescs :=
  { as_desc :=
      if st = some SettingType.add_one_static ∧ 1 ≤ added_static.length then
        some (getObjectDescription (added_static.getD 0 0) objects) else none,
    as1_desc :=
      if st = some SettingType.add_two_static ∧ 2 ≤ added_static.length then
        some (getObjectDescription (added_static.getD 0 0) objects) else none,
    as2_desc :=
      if st = some SettingType.add_two_static ∧ 2 ≤ added_static.length then
        some (getObjectDescription (added_static.getD 1 0) objects) else none,
    am_desc :=
      if st = some SettingType.add_one_moving ∧ 1 ≤ added_moving.length then
        some (getObjectDescription (added_moving.getD 0 0) objects) else none,
    am1_desc :=
      if st = some SettingType.add_two_moving ∧ 2 ≤ added_moving.length then
        some (getObjectDescription (added_moving.getD 0 0) objects) else none,
    am2_desc :=
      if st = some SettingType.add_two_moving ∧ 2 ≤ added_moving.length then
        some (getObjectDescription (added_moving.getD 1 0) objects) else none }

/-- Inserts the distractor option strings just before the final option, which
is where every option-list variant of the source places them. -/
def insertBeforeLast (base extra : List String) : List String :=
  base.take (base.length - 1) ++ extra ++ base.drop (base.length - 1)

/-- The option-list `if/elif` chain shared (up to the base list and the
phrasing of the distractor line, `present`) by every multiple-choice question
of the six generators: no setting keeps the base list; a matching setting with
truthy (non-`None`, non-empty) distractor descriptions inserts one or two
distractor options before the last entry; otherwise no branch assigns and the
options stay the empty list. -/
def optionsWithDistractors (st : Option SettingType) (dd : DistractorDescs)
    (present : String → String) (base : List String) : List String :=
  match st with
  | none => base
  | some SettingType.add_one_static =>
    match dd.as_desc with
    | some a => if a ≠ "" then insertBeforeLast base [present a] else []
    | none => []
  | some SettingType.add_two_static =>
    match dd.as1_desc, dd.as2_desc with
    | some a, some b => if a ≠ "" ∧ b ≠ "" then insertBeforeLast base [present a, present b] else []
    | _, _ => []
  | some SettingType.add_one_moving =>
    match dd.am_desc with
    | some a => if a ≠ "" then insertBeforeLast base [present a] else []
    | none => []
  | some SettingType.add_two_moving =>
    match dd.am1_desc, dd.am2_desc with
    | some a, some b => if a ≠ "" ∧ b ≠ "" then insertBeforeLast base [present a, present b] else []
    | _, _ => []

/-- The distractor phrasing of the "Why…" attribution options. -/
def wasPresent (a : String) : String := "Because the " ++ a ++ " was present."

/-- The distractor phrasing of the actual-cause options. -/
def isPresent (a : String) : String := "The " ++ a ++ " is present."

/-- The no-setting option list of the overdetermination "Why did S move?"
question. -/
def overdetWhyBase (m1d m2d sd : String) : List String :=
  ["Because the " ++ m1d ++ " moved toward the " ++ sd ++ ".",
   "Because the " ++ m2d ++ " moved toward the " ++ sd ++ ".",
   "Because the " ++ m1d ++ " and the " ++ m2d ++ " moved toward the " ++ sd ++ ".",
   "Because the " ++ sd ++ " moved spontaneously."]

/-- The pre-shuffle correct answers of that question. -/
def overdetWhyCorrect (m1d m2d sd : String) : List String :=
  ["Because the " ++ m1d ++ " moved toward the " ++ sd ++ ".",
   "Because the " ++ m2d ++ " moved toward the " ++ sd ++ "."]

/-- The no-setting option list of the overdetermination actual-cause
question. -/
def overdetACBase (m1d m2d sd : String) : List String :=
  ["The " ++ m1d ++ " moves toward the " ++ sd ++ ".",
   "The " ++ m2d ++ " moves toward the " ++ sd ++ ".",
   "The " ++ m1d ++ " and the " ++ m2d ++ " move toward the " ++ sd ++ ".",
   "None."]

/-- The four-semantics correct-answer mapping of the overdetermination
actual-cause question. -/
def overdetACMapping (m1d m2d sd : String) : List (String × List String) :=
  [("HP",
    ["The " ++ m1d ++ " moves toward the " ++ sd ++ ".",
     "The " ++ m2d ++ " moves toward the " ++ sd ++ ".",
     "The " ++ m1d ++ " and the " ++ m2d ++ " move toward the " ++ sd ++ "."]),
   ("BV",
    ["The " ++ m1d ++ " moves toward the " ++ sd ++ ".",
     "The " ++ m2d ++ " moves toward the " ++ sd ++ "."]),
   ("DBV",
    ["The " ++ m1d ++ " moves toward the " ++ sd ++ ".",
     "The " ++ m2d ++ " moves toward the " ++ sd ++ "."]),
   ("Boc",
    ["The " ++ m1d ++ " moves toward the " ++ sd ++ ".",
     "The " ++ m2d ++ " moves toward the " ++ sd ++ "."])]

/-- `OverdeterminationScenarioQAGenerator.generate_qa_templates`, with the
mutable `self.setting` passed as `st` and the two `random.sample` draws as the
shuffle oracles `shuffleA` (attribution question) and `shuffleB` (actual-cause
question).  Returns `none` where the source would raise `ValueError` from
`list.index`, and `some []` under the unresolved-role guard. -/
def overdetGenerateQA (st : Option SettingType) (shuffleA shuffleB : List String → List String)
    (data : SimData) (analysis : OverdetAnalysis) : Option (List QAPair) :=
  match analysis.M1, analysis.M2, analysis.S with
  | some m1, some m2, some s =>
    let objects := data.object_property
    let m1_desc := getObjectDescription m1 objects
    let m2_desc := getObjectDescription m2 objects
    let s_desc := getObjectDescription s objects
    let dd := distractorDescs st objects analysis.added_static analysis.added_moving
    let whyOptions := optionsWithDistractors st dd wasPresent (overdetWhyBase m1_desc m2_desc s_desc)
    let acOptions := optionsWithDistractors st dd isPresent (overdetACBase m1_desc m2_desc s_desc)
    match
      mkMultiChoice ("Why did the " ++ s_desc ++ " move?") "causal_attribution" "discovery"
        (overdetWhyCorrect m1_desc m2_desc s_desc) (shuffleA whyOptions),
      mkActualCause ("What is the actual cause of the " ++ s_desc ++ " moving?")
        (overdetACMapping m1_desc m2_desc s_desc) (shuffleB acOptions) with
    | some whyQA, some acQA =>
      some
        [ynQA ("Does the " ++ m1_desc ++ "'s motion toward the " ++ s_desc ++ " affect the " ++
            s_desc ++ "'s motion?") "Yes" "causality_identification" "discovery",
         ynQA ("Does the " ++ m2_desc ++ "'s motion toward the " ++ s_desc ++ " affect the " ++
            s_desc ++ "'s motion?") "Yes" "causality_identification" "discovery",
         whyQA,
         ynQA ("If we force the " ++ m1_desc ++ " not to move toward the " ++ s_desc ++
            ", will the " ++ m2_desc ++ " cause the " ++ s_desc ++ " to move?")
           "Yes" "individual_causal_effect" "intervention",
         ynQA ("If we force the " ++ m2_desc ++ " not to move toward the " ++ s_desc ++
            ", will the " ++ m1_desc ++ " cause the " ++ s_desc ++ " to move?")
           "Yes" "individual_causal_effect" "intervention",
         ynQA ("If the " ++ m1_desc ++ " had not moved toward the " ++ s_desc ++
            ", would the " ++ s_desc ++ " still have moved?")
           "Yes" "counterfactual_reasoning" "counterfactual",
         ynQA ("If the " ++ m2_desc ++ " had not moved toward the " ++ s_desc ++
            ", would the " ++ s_desc ++ " still have moved?")
           "Yes" "counterfactual_reasoning" "counterfactual",
         ynQA ("Was the fact that the " ++ m1_desc ++ " moved toward the " ++ s_desc ++
            " sufficient for the " ++ s_desc ++ " to move?")
           "Yes" "sufficient_cause" "counterfactual",
         ynQA ("Was the fact that the " ++ m2_desc ++ " moved toward the " ++ s_desc ++
            " sufficient for the " ++ s_desc ++ " to move?")
           "Yes" "sufficient_cause" "counterfactual",
         ynQA ("Was the fact that the " ++ m1_desc ++ " moved toward the " ++ s_desc ++
            " necessary for the " ++ s_desc ++ " to move?")
           "No" "necessary_cause" "counterfactual",
         ynQA ("Was the fact that the " ++ m2_desc ++ " moved toward the " ++ s_desc ++
            " necessary for the " ++ s_desc ++ " to move?")
           "No" "necessary_cause" "counterfactual",
         acQA,
         ynQA ("Was the fact that the " ++ m1_desc ++ " moved toward the " ++ s_desc ++
            " responsible for the " ++ s_desc ++ " moving?")
           "Yes" "responsibility" "counterfactual",
         ynQA ("Was the fact that the " ++ m2_desc ++ " moved toward the " ++ s_desc ++
            " responsible for the " ++ s_desc ++ " moving?")
           "Yes" "responsibility" "counterfactual"]
    | _, _ => none
  | _, _, _ => some []

/-- A causal graph: the insertion-ordered variable map (the source's
`variables` key; `variables` is a reserved word in Lean 4, hence `vars`) and
the edge list. -/
structure CausalGraph where
  vars : List (String × String)
  edges : List String
deriving DecidableEq

/-- A twin network: the factual world string and the insertion-ordered map
from intervention description to counterfactual world string. -/
structure TwinNetwork where
  factual_world : String
  counterfactual_world : List (String × String)
deriving DecidableEq

/-- The `generate_cr_templates` result record. -/
structure CRResult where
  causal_graph : Option CausalGraph
  twin_network : Option TwinNetwork
deriving DecidableEq

/-- `twin_network["counterfactual_world"][k] += suffix`: appends to the value
at key `k`, keeping positions. -/
def updAppend (m : List (String × String)) (k suffix : String) : List (String × String) :=
  m.map (fun p => if p.1 = k then (p.1, p.2 ++ suffix) else p)

/-- The distractor-extension block repeated verbatim at the end of every
`generate_cr_templates`: for a matching setting with truthy descriptions it
appends the indicator variable(s) to the variable map and the `=1`
assignment suffix to the factual world and to each counterfactual world named
in `keys` (which always lists every key of the scenario's counterfactual
map). -/
def extendCR (st : Option SettingType) (dd : DistractorDescs) (keys : List String)
    (g : CausalGraph) (t : TwinNetwork) : CausalGraph × TwinNetwork :=
  match st with
  | none => (g, t)
  | some SettingType.add_one_static =>
    match dd.as_desc with
    | some a =>
      if a ≠ "" then
        (⟨g.vars ++ [("S", "The " ++ a ++ "'s presence")], g.edges⟩,
         ⟨t.factual_world ++ ", S=1",
          keys.foldl (fun m k => updAppend m k ", S=1") t.counterfactual_world⟩)
      else (g, t)
    | none => (g, t)
  | some SettingType.add_two_static =>
    match dd.as1_desc, dd.as2_desc with
    | some a, some b =>
      if a ≠ "" ∧ b ≠ "" then
        (⟨g.vars ++ [("S1", "The " ++ a ++ "'s presence"),
                          ("S2", "The " ++ b ++ "'s presence")], g.edges⟩,
         ⟨t.factual_world ++ ", S1=1, S2=1",
          keys.foldl (fun m k => updAppend m k ", S1=1, S2=1") t.counterfactual_world⟩)
      else (g, t)
    | _, _ => (g, t)
  | some SettingType.add_one_moving =>
    match dd.am_desc with
    | some a =>
      if a ≠ "" then
        (⟨g.vars ++ [("M", "The " ++ a ++ "'s presence")], g.edges⟩,
         ⟨t.factual_world ++ ", M=1",
          keys.foldl (fun m k => updAppend m k ", M=1") t.counterfactual_world⟩)
      else (g, t)
    | none => (g, t)
  | some SettingType.add_two_moving =>
    match dd.am1_desc, dd.am2_desc with
    | some a, some b =>
      if a ≠ "" ∧ b ≠ "" then
        (⟨g.vars ++ [("M1", "The " ++ a ++ "'s presence"),
                          ("M2", "The " ++ b ++ "'s presence")], g.edges⟩,
         ⟨t.factual_world ++ ", M1=1, M2=1",
          keys.foldl (fun m k => updAppend m k ", M1=1, M2=1") t.counterfactual_world⟩)
      else (g, t)
    | _, _ => (g, t)

/-- `OverdeterminationScenarioQAGenerator.generate_cr_templates`. -/
def overdetGenerateCR (st : Option SettingType) (data : SimData)
    (analysis : OverdetAnalysis) : CRResult :=
  match analysis.M1, analysis.M2, analysis.S with
  | some m1, some m2, some s =>
    let objects := data.object_property
    let m1_desc := getObjectDescription m1 objects
    let m2_desc := getObjectDescription m2 objects
    let s_desc := getObjectDescription s objects
    let dd := distractorDescs st objects analysis.added_static analysis.added_moving
    let causal_graph : CausalGraph :=
      ⟨[("X1", "The " ++ m1_desc ++ "'s motion toward the " ++ s_desc),
        ("X2", "The " ++ m2_desc ++ "'s motion toward the " ++ s_desc),
        ("Y", "The " ++ s_desc ++ "'s motion")],
       ["X1 -> Y", "X2 -> Y"]⟩
    let twin_network : TwinNetwork :=
      ⟨"X1=1, X2=1, Y=1", [("do(X1=0)", "X2=1, Y=1"), ("do(X2=0)", "X1=1, Y=1")]⟩
    let gt := extendCR st dd ["do(X1=0)", "do(X2=0)"] causal_graph twin_network
    ⟨some gt.1, some gt.2⟩
  | _, _, _ => ⟨none, none⟩

/-- The no-setting option list of the switch "Why did S move?" question. -/
def switchWhyBase (m1d m2d sd : String) : List String :=
  ["Because the " ++ m1d ++ " moved toward the " ++ sd ++ " before its collision with the " ++
     m2d ++ ".",
   "Because the " ++ m2d ++ " collided with the " ++ m1d ++ ".",
   "Because the " ++ m1d ++ " moved toward the " ++ sd ++ " after its collision with the " ++
     m2d ++ ".",
   "Because the " ++ sd ++ " moved spontaneously."]

/-- The pre-shuffle correct answer of that question. -/
def switchWhyCorrect (m1d m2d sd : String) : List String :=
  ["Because the " ++ m1d ++ " moved toward the " ++ sd ++ " after its collision with the " ++
     m2d ++ "."]

/-- The no-setting option list of the switch actual-cause question. -/
def switchACBase (m1d m2d sd : String) : List String :=
  ["The " ++ m1d ++ " moves toward the " ++ sd ++ " before its collision with the " ++ m2d ++ ".",
   "The " ++ m2d ++ " collides with the " ++ m1d ++ ".",
   "The " ++ m1d ++ " moves toward the " ++ sd ++ " after its collision with the " ++ m2d ++ ".",
   "None."]

/-- The four-semantics mapping of the switch actual-cause question. -/
def switchACMapping (m1d m2d sd : String) : List (String × List String) :=
  [("HP",
    ["The " ++ m2d ++ " collides with the " ++ m1d ++ ".",
     "The " ++ m1d ++ " moves toward the " ++ sd ++ " after its collision with the " ++ m2d ++ "."]),
   ("BV",
    ["The " ++ m1d ++ " moves toward the " ++ sd ++ " after its collision with the " ++ m2d ++ "."]),
   ("DBV",
    ["The " ++ m1d ++ " moves toward the " ++ sd ++ " after its collision with the " ++ m2d ++ "."]),
   ("Boc",
    ["The " ++ m2d ++ " collides with the " ++ m1d ++ ".",
     "The " ++ m1d ++ " moves toward the " ++ sd ++ " after its collision with the " ++ m2d ++ "."])]

/-- `SwitchScenarioQAGenerator.generate_qa_templates`. -/
def switchGenerateQA (st : Option SettingType) (shuffleA shuffleB : List String → List String)
    (data : SimData) (analysis : SwitchAnalysis) : Option (List QAPair) :=
  match analysis.M1, analysis.M2, analysis.S with
  | some m1, some m2, some s =>
    let objects := data.object_property
    let m1_desc := getObjectDescription m1 objects
    let m2_desc := getObjectDescription m2 objects
    let s_desc := getObjectDescription s objects
    let dd := distractorDescs st objects analysis.added_static analysis.added_moving
    let whyOptions := optionsWithDistractors st dd wasPresent (switchWhyBase m1_desc m2_desc s_desc)
    let acOptions := optionsWithDistractors st dd isPresent (switchACBase m1_desc m2_desc s_desc)
    match
      mkMultiChoice ("Why did the " ++ s_desc ++ " move?") "causal_attribution" "discovery"
        (switchWhyCorrect m1_desc m2_desc s_desc) (shuffleA whyOptions),
      mkActualCause ("What is the actual cause of the " ++ s_desc ++ " moving?")
        (switchACMapping m1_desc m2_desc s_desc) (shuffleB acOptions) with
    | some whyQA, some acQA =>
      some
        [ynQA ("Does the " ++ m1_desc ++ "'s motion toward the " ++ s_desc ++
            " before its collision with the " ++ m2_desc ++ " affect the " ++ s_desc ++
            "'s motion?") "Yes" "causality_identification" "discovery",
         ynQA ("Does the " ++ m2_desc ++ "'s collision with the " ++ m1_desc ++
            " affect the " ++ s_desc ++ "'s motion?") "No" "causality_identification" "discovery",
         ynQA ("Does the " ++ m1_desc ++ "'s motion toward the " ++ s_desc ++
            " after its collision with the " ++ m2_desc ++ " affect the " ++ s_desc ++
            "'s motion?") "Yes" "causality_identification" "discovery",
         whyQA,
         ynQA ("If we force the " ++ m1_desc ++ " not to move toward the " ++ s_desc ++
            " after its collision with the " ++ m2_desc ++ ", will the " ++ m1_desc ++
            " cause the " ++ s_desc ++ " to move?") "No" "individual_causal_effect" "intervention",
         ynQA ("If we force the " ++ m2_desc ++ " not to collide with the " ++ m1_desc ++
            ", will the " ++ m1_desc ++ " cause the " ++ s_desc ++ " to move?")
           "Yes" "individual_causal_effect" "intervention",
         ynQA ("If the " ++ m1_desc ++ " had not moved toward the " ++ s_desc ++
            " after its collision with the " ++ m2_desc ++ ", would the " ++ s_desc ++
            " still have moved?") "No" "counterfactual_reasoning" "counterfactual",
         ynQA ("If the " ++ m2_desc ++ " had not collided with the " ++ m1_desc ++
            ", would the " ++ s_desc ++ " still have moved?")
           "Yes" "counterfactual_reasoning" "counterfactual",
         ynQA ("Was the fact that the " ++ m1_desc ++ " moved toward the " ++ s_desc ++
            " before its collision with the " ++ m2_desc ++ " sufficient for the " ++ s_desc ++
            " to move?") "Yes" "sufficient_cause" "counterfactual",
         ynQA ("Was the fact that the " ++ m2_desc ++ " collided with the " ++ m1_desc ++
            " sufficient for the " ++ s_desc ++ " to move?")
           "No" "sufficient_cause" "counterfactual",
         ynQA ("Was the fact that the " ++ m1_desc ++ " moved toward the " ++ s_desc ++
            " after its collision with the " ++ m2_desc ++ " sufficient for the " ++ s_desc ++
            " to move?") "Yes" "sufficient_cause" "counterfactual",
         ynQA ("Was the fact that the " ++ m1_desc ++ " moved toward the " ++ s_desc ++
            " before its collision with the " ++ m2_desc ++ " necessary for the " ++ s_desc ++
            " to move?") "No" "necessary_cause" "counterfactual",
         ynQA ("Was the fact that the " ++ m2_desc ++ " collided with the " ++ m1_desc ++
            " necessary for the " ++ s_desc ++ " to move?")
           "No" "necessary_cause" "counterfactual",
         ynQA ("Was the fact that the " ++ m1_desc ++ " moved toward the " ++ s_desc ++
            " after its collision with the " ++ m2_desc ++ " necessary for the " ++ s_desc ++
            " to move?") "Yes" "necessary_cause" "counterfactual",
         acQA,
         ynQA ("Was the fact that the " ++ m1_desc ++ " moved toward the " ++ s_desc ++
            " before its collision with the " ++ m2_desc ++ " responsible for the " ++ s_desc ++
            " moving?") "No" "responsibility" "counterfactual",
         ynQA ("Was the fact that the " ++ m2_desc ++ " collided with the " ++ m1_desc ++
            " responsible for the " ++ s_desc ++ " moving?")
           "No" "responsibility" "counterfactual",
         ynQA ("Was the fact that the " ++ m1_desc ++ " moved toward the " ++ s_desc ++
            " after its collision with the " ++ m2_desc ++ " responsible for the " ++ s_desc ++
            " moving?") "Yes" "responsibility" "counterfactual"]
    | _, _ => none
  | _, _, _ => some []

/-- `SwitchScenarioQAGenerator.generate_cr_templates`. -/
def switchGenerateCR (st : Option SettingType) (data : SimData)
    (analysis : SwitchAnalysis) : CRResult :=
  match analysis.M1, analysis.M2, analysis.S with
  | some m1, some m2, some s =>
    let objects := data.object_property
    let m1_desc := getObjectDescription m1 objects
    let m2_desc := getObjectDescription m2 objects
    let s_desc := getObjectDescription s objects
    let dd := distractorDescs st objects analysis.added_static analysis.added_moving
    let causal_graph : CausalGraph :=
      ⟨[("Z", "The " ++ m2_desc ++ "'s collision with the " ++ m1_desc),
        ("X1", "The " ++ m1_desc ++ "'s motion toward the " ++ s_desc ++
          " with colliding with the " ++ m2_desc),
        ("X2", "The " ++ m1_desc ++ "'s motion toward the " ++ s_desc ++
          " without colliding with the " ++ m2_desc),
        ("Y", "The " ++ s_desc ++ "'s motion")],
       ["Z -> X1", "Z -> X2", "X1 -> Y", "X2 -> Y"]⟩
    let twin_network : TwinNetwork :=
      ⟨"Z=1, X1=1, X2=0, Y=1", [("do(Z=0)", "X1=0, X2=1, Y=1")]⟩
    let gt := extendCR st dd ["do(Z=0)"] causal_graph twin_network
    ⟨some gt.1, some gt.2⟩
  | _, _, _ => ⟨none, none⟩

/-- The no-setting option list of the bogus "Why did S1 stay stationary?"
question. -/
def bogusWhyBase (m1d m2d s1d s2d : String) : List String :=
  ["Because the " ++ m1d ++ " collided with the " ++ s2d ++ ".",
   "Because the " ++ m2d ++ " did not collide with the " ++ s2d ++ ".",
   "Because the " ++ s2d ++ " did not move toward the " ++ s1d ++ ".",
   "Because the " ++ s1d ++ " moved spontaneously."]

/-- The pre-shuffle correct answer of that question. -/
def bogusWhyCorrect (m2d s2d : String) : List String :=
  ["Because the " ++ m2d ++ " did not collide with the " ++ s2d ++ "."]

/-- The no-setting option list of the bogus actual-cause question. -/
def bogusACBase (m1d m2d s1d s2d : String) : List String :=
  ["The " ++ m1d ++ " collides with the " ++ s2d ++ ".",
   "The " ++ m2d ++ " does not collide with the " ++ s2d ++ ".",
   "The " ++ m1d ++ " collides with the " ++ s2d ++ " and the " ++ m2d ++
     " does not collide with the " ++ s2d ++ ".",
   "The " ++ s2d ++ " does not move toward the " ++ s1d ++ ".",
   "None."]

/-- The four-semantics mapping of the bogus actual-cause question. -/
def bogusACMapping (m1d m2d s1d s2d : String) : List (String × List String) :=
  [("HP",
    ["The " ++ m1d ++ " collides with the " ++ s2d ++ " and the " ++ m2d ++
       " does not collide with the " ++ s2d ++ ".",
     "The " ++ s2d ++ " does not move toward the " ++ s1d ++ "."]),
   ("BV",
    ["The " ++ m2d ++ " does not collide with the " ++ s2d ++ ".",
     "The " ++ s2d ++ " does not move toward the " ++ s1d ++ "."]),
   ("DBV",
    ["The " ++ m2d ++ " does not collide with the " ++ s2d ++ ".",
     "The " ++ s2d ++ " does not move toward the " ++ s1d ++ "."]),
   ("Boc",
    ["The " ++ m1d ++ " collides with the " ++ s2d ++ ".",
     "The " ++ m2d ++ " does not collide with the " ++ s2d ++ ".",
     "The " ++ s2d ++ " does not move toward the " ++ s1d ++ "."])]

/-- `BogusScenarioQAGenerator.generate_qa_templates`. -/
def bogusGenerateQA (st : Option SettingType) (shuffleA shuffleB : List String → List String)
    (data : SimData) (analysis : BogusAnalysis) : Option (List QAPair) :=
  match analysis.M1, analysis.M2, analysis.S1, analysis.S2 with
  | some m1, some m2, some s1, some s2 =>
    let objects := data.object_property
    let m1_desc := getObjectDescription m1 objects
    let m2_desc := getObjectDescription m2 objects
    let s1_desc := getObjectDescription s1 objects
    let s2_desc := getObjectDescription s2 objects
    let dd := distractorDescs st objects analysis.added_static analysis.added_moving
    let whyOptions :=
      optionsWithDistractors st dd wasPresent (bogusWhyBase m1_desc m2_desc s1_desc s2_desc)
    let acOptions :=
      optionsWithDistractors st dd isPresent (bogusACBase m1_desc m2_desc s1_desc s2_desc)
    match
      mkMultiChoice ("Why did the " ++ s1_desc ++ " stay stationary?") "causal_attribution"
        "discovery" (bogusWhyCorrect m2_desc s2_desc) (shuffleA whyOptions),
      mkActualCause ("What is the actual cause of the " ++ s1_desc ++ " staying stationary?")
        (bogusACMapping m1_desc m2_desc s1_desc s2_desc) (shuffleB acOptions) with
    | some whyQA, some acQA =>
      some
        [ynQA ("Does the " ++ m1_desc ++ "'s collision with the " ++ s2_desc ++
            " affect the " ++ s1_desc ++ "'s motion?")
           "Yes" "causality_identification" "discovery",
         ynQA ("Does the " ++ m2_desc ++ "'s collision with the " ++ s2_desc ++
            " affect the " ++ s1_desc ++ "'s motion?")
           "Yes" "causality_identification" "discovery",
         ynQA ("Does the " ++ s2_desc ++ "'s motion toward the " ++ s1_desc ++
            " affect the " ++ s1_desc ++ "'s motion?")
           "Yes" "causality_identification" "discovery",
         whyQA,
         ynQA ("If we force the " ++ m1_desc ++ " not to collide with the " ++ s2_desc ++
            " and force the " ++ m2_desc ++ " to collide with the " ++ s2_desc ++
            ", will the " ++ s2_desc ++ " cause the " ++ s1_desc ++ " to move?")
           "Yes" "individual_causal_effect" "intervention",
         ynQA ("If we force the " ++ m1_desc ++ " not to collide with the " ++ s2_desc ++
            " and force the " ++ m2_desc ++ " to collide with the " ++ s2_desc ++
            ", will the " ++ m1_desc ++ " cause the " ++ s1_desc ++ " to move?")
           "No" "individual_causal_effect" "intervention",
         ynQA ("If we force the " ++ m2_desc ++ " to collide with the " ++ s2_desc ++
            ", will the " ++ s2_desc ++ " cause the " ++ s1_desc ++ " to move?")
           "No" "individual_causal_effect" "intervention",
         ynQA ("If the " ++ m1_desc ++ " had not collided with the " ++ s2_desc ++
            " and the " ++ m2_desc ++ " had collided with the " ++ s2_desc ++
            ", would the " ++ s1_desc ++ " still have stayed stationary?")
           "No" "counterfactual_reasoning" "counterfactual",
         ynQA ("If the " ++ m2_desc ++ " had collided with the " ++ s2_desc ++
            ", would the " ++ s1_desc ++ " still have stayed stationary?")
           "Yes" "counterfactual_reasoning" "counterfactual",
         ynQA ("Was the fact that the " ++ m1_desc ++ " collided with the " ++ s2_desc ++
            " sufficient for the " ++ s1_desc ++ " to stay stationary?")
           "Yes" "sufficient_cause" "counterfactual",
         ynQA ("Was the fact that the " ++ m2_desc ++ " did not collide with the " ++ s2_desc ++
            " sufficient for the " ++ s1_desc ++ " to stay stationary?")
           "Yes" "sufficient_cause" "counterfactual",
         ynQA ("Was the fact that the " ++ s2_desc ++ " did not move toward the " ++ s1_desc ++
            " sufficient for the " ++ s1_desc ++ " to stay stationary?")
           "Yes" "sufficient_cause" "counterfactual",
         ynQA ("Was the fact that the " ++ m1_desc ++ " collided with the " ++ s2_desc ++
            " necessary for the " ++ s1_desc ++ " to stay stationary?")
           "No" "necessary_cause" "counterfactual",
         ynQA ("Was the fact that the " ++ m2_desc ++ " did not collide with the " ++ s2_desc ++
            " necessary for the " ++ s1_desc ++ " to stay stationary?")
           "No" "necessary_cause" "counterfactual",
         ynQA ("Was the fact that the " ++ s2_desc ++ " did not move toward the " ++ s1_desc ++
            " necessary for the " ++ s1_desc ++ " to stay stationary?")
           "No" "necessary_cause" "counterfactual",
         acQA,
         ynQA ("Was the fact that the " ++ m1_desc ++ " collided with the " ++ s2_desc ++
            " responsible for the " ++ s1_desc ++ " staying stationary?")
           "No" "responsibility" "counterfactual",
         ynQA ("Was the fact that the " ++ m2_desc ++ " did not collide with the " ++ s2_desc ++
            " responsible for the " ++ s1_desc ++ " staying stationary?")
           "Yes" "responsibility" "counterfactual",
         ynQA ("Was the fact that the " ++ s2_desc ++ " did not move toward the " ++ s1_desc ++
            " responsible for the " ++ s1_desc ++ " staying stationary?")
           "No" "responsibility" "counterfactual"]
    | _, _ => none
  | _, _, _, _ => some []

/-- `BogusScenarioQAGenerator.generate_cr_templates`. -/
def bogusGenerateCR (st : Option SettingType) (data : SimData)
    (analysis : BogusAnalysis) : CRResult :=
  match analysis.M1, analysis.M2, analysis.S1, analysis.S2 with
  | some m1, some m2, some s1, some s2 =>
    let objects := data.object_property
    let m1_desc := getObjectDescription m1 objects
    let m2_desc := getObjectDescription m2 objects
    let s1_desc := getObjectDescription s1 objects
    let s2_desc := getObjectDescription s2 objects
    let dd := distractorDescs st objects analysis.added_static analysis.added_moving
    let causal_graph : CausalGraph :=
      ⟨[("X1", "The " ++ m1_desc ++ "'s collision with the " ++ s2_desc),
        ("X2", "The " ++ m2_desc ++ "'s collision with the " ++ s2_desc),
        ("Z", "The " ++ s2_desc ++ "'s motion toward the " ++ s1_desc),
        ("W", "The " ++ s2_desc ++ " reaches the " ++ s1_desc),
        ("Y", "The " ++ s1_desc ++ "'s motion")],
       ["X1 -> Z", "X2 -> Z", "Z -> Y", "W -> Y"]⟩
    let twin_network : TwinNetwork :=
      ⟨"X1=1, X2=0, Z=0, W=0, Y=0",
       [("do(X1=0, X2=1)", "Z=1, W=?, Y=W"), ("do(X1=1, X2=1)", "Z=0, W=0, Y=0")]⟩
    let gt := extendCR st dd ["do(X1=0, X2=1)", "do(X1=1, X2=1)"] causal_graph twin_network
    ⟨some gt.1, some gt.2⟩
  | _, _, _, _ => ⟨none, none⟩

/-- The analysis record built by `early.py`'s `analyze_scenario` (the analyzer
itself is not needed by the claims; its record shape is consumed by the early
generators). -/
structure EarlyAnalysis where
  M1 : Option Nat
  M2 : Option Nat
  S1 : Option Nat
  S2 : Option Nat
  events : List Event
  collision_info : List Collision
  collision_sequence : List Collision
  s1_final_state : String
  added_static : List Nat
  added_moving : List Nat
deriving DecidableEq

/-- The analysis record built by `late.py`'s `analyze_scenario`. -/
structure LateAnalysis where
  M1 : Option Nat
  M2 : Option Nat
  S : Option Nat
  events : List Event
  collision_info : List Collision
  added_static : List Nat
  added_moving : List Nat
deriving DecidableEq

/-- The analysis record built by `double.py`'s `analyze_scenario`. -/
structure DoubleAnalysis where
  M1 : Option Nat
  M2 : Option Nat
  M3 : Option Nat
  S : Option Nat
  events : List Event
  collision_info : List Collision
  collision_sequence : List Collision
  trajectory_deviation : Bool
  added_static : List Nat
  added_moving : List Nat
deriving DecidableEq

/-- The no-setting option list of the early "Why did S1 move?" question. -/
def earlyWhyBase (m1d s1d s2d : String) : List String :=
  ["Because the " ++ m1d ++ " moved toward the " ++ s1d ++ ".",
   "Because the " ++ s2d ++ " moved toward the " ++ s1d ++ ".",
   "Because the " ++ s1d ++ " moved spontaneously."]

/-- The pre-shuffle correct answer of that question. -/
def earlyWhyCorrect (m1d s1d : String) : List String :=
  ["Because the " ++ m1d ++ " moved toward the " ++ s1d ++ "."]

/-- The no-setting option list of the early actual-cause question. -/
def earlyACBase (m1d s1d s2d : String) : List String :=
  ["The " ++ m1d ++ " moves toward the " ++ s1d ++ ".",
   "The " ++ s2d ++ " moves toward the " ++ s1d ++ ".",
   "None."]

/-- The four-semantics mapping of the early actual-cause question. -/
def earlyACMapping (m1d s1d : String) : List (String × List String) :=
  [("HP", ["The " ++ m1d ++ " moves toward the " ++ s1d ++ "."]),
   ("BV", ["None."]),
   ("DBV", ["The " ++ m1d ++ " moves toward the " ++ s1d ++ "."]),
   ("Boc", ["The " ++ m1d ++ " moves toward the " ++ s1d ++ "."])]

/-- `EarlyScenarioQAGenerator.generate_qa_templates`. -/
def earlyGenerateQA (st : Option SettingType) (shuffleA shuffleB : List String → List String)
    (data : SimData) (analysis : EarlyAnalysis) : Option (List QAPair) :=
  match analysis.M1, analysis.M2, analysis.S1, analysis.S2 with
  | some m1, some _m2, some s1, some s2 =>
    let objects := data.object_property
    let m1_desc := getObjectDescription m1 objects
    let s1_desc := getObjectDescription s1 objects
    let s2_desc := getObjectDescription s2 objects
    let dd := distractorDescs st objects analysis.added_static analysis.added_moving
    let whyOptions :=
      optionsWithDistractors st dd wasPresent (earlyWhyBase m1_desc s1_desc s2_desc)
    let acOptions :=
      optionsWithDistractors st dd isPresent (earlyACBase m1_desc s1_desc s2_desc)
    match
      mkMultiChoice ("Why did the " ++ s1_desc ++ " move?") "causal_attribution" "discovery"
        (earlyWhyCorrect m1_desc s1_desc) (shuffleA whyOptions),
      mkActualCause ("What is the actual cause of the " ++ s1_desc ++ " moving?")
        (earlyACMapping m1_desc s1_desc) (shuffleB acOptions) with
    | some whyQA, some acQA =>
      some
        [ynQA ("Does the " ++ m1_desc ++ "'s motion toward the " ++ s1_desc ++
            " affect the " ++ s1_desc ++ "'s motion?")
           "Yes" "causality_identification" "discovery",
         ynQA ("Does the " ++ s2_desc ++ "'s motion toward the " ++ s1_desc ++
            " affect the " ++ s1_desc ++ "'s motion?")
           "Yes" "causality_identification" "discovery",
         whyQA,
         ynQA ("If we force the " ++ m1_desc ++ " not to move toward the " ++ s1_desc ++
            ", will the " ++ s2_desc ++ " cause the " ++ s1_desc ++ " to move?")
           "Yes" "individual_causal_effect" "intervention",
         ynQA ("If we force the " ++ s2_desc ++ " not to move toward the " ++ s1_desc ++
            ", will the " ++ m1_desc ++ " cause the " ++ s1_desc ++ " to move?")
           "Yes" "individual_causal_effect" "intervention",
         ynQA ("If the " ++ m1_desc ++ " had not moved toward the " ++ s1_desc ++
            ", would the " ++ s1_desc ++ " still have moved?")
           "Yes" "counterfactual_reasoning" "counterfactual",
         ynQA ("If the " ++ s2_desc ++ " had not moved toward the " ++ s1_desc ++
            ", would the " ++ s1_desc ++ " still have moved?")
           "Yes" "counterfactual_reasoning" "counterfactual",
         ynQA ("Was the fact that the " ++ m1_desc ++ " moved toward the " ++ s1_desc ++
            " sufficient for the " ++ s1_desc ++ " to move?")
           "Yes" "sufficient_cause" "counterfactual",
         ynQA ("Was the fact that the " ++ s2_desc ++ " moved toward the " ++ s1_desc ++
            " sufficient for the " ++ s1_desc ++ " to move?")
           "Yes" "sufficient_cause" "counterfactual",
         ynQA ("Was the fact that the " ++ m1_desc ++ " moved toward the " ++ s1_desc ++
            " necessary for the " ++ s1_desc ++ " to move?")
           "No" "necessary_cause" "counterfactual",
         ynQA ("Was the fact that the " ++ s2_desc ++ " moved toward the " ++ s1_desc ++
            " necessary for the " ++ s1_desc ++ " to move?")
           "No" "necessary_cause" "counterfactual",
         acQA,
         ynQA ("Was the fact that the " ++ m1_desc ++ " moved toward the " ++ s1_desc ++
            " responsible for the " ++ s1_desc ++ " moving?")
           "Yes" "responsibility" "counterfactual",
         ynQA ("Was the fact that the " ++ s2_desc ++ " moved toward the " ++ s1_desc ++
            " responsible for the " ++ s1_desc ++ " moving?")
           "No" "responsibility" "counterfactual"]
    | _, _ => none
  | _, _, _, _ => some []

/-- `EarlyScenarioQAGenerator.generate_cr_templates`. -/
def earlyGenerateCR (st : Option SettingType) (data : SimData)
    (analysis : EarlyAnalysis) : CRResult :=
  match analysis.M1, analysis.M2, analysis.S1, analysis.S2 with
  | some m1, some _m2, some s1, some s2 =>
    let objects := data.object_property
    let m1_desc := getObjectDescription m1 objects
    let s1_desc := getObjectDescription s1 objects
    let s2_desc := getObjectDescription s2 objects
    let dd := distractorDescs st objects analysis.added_static analysis.added_moving
    let causal_graph : CausalGraph :=
      ⟨[("X1", "The " ++ m1_desc ++ "'s motion toward the " ++ s1_desc),
        ("X2", "The " ++ s2_desc ++ "'s motion toward the " ++ s1_desc),
        ("Y", "The " ++ s1_desc ++ "'s motion")],
       ["X1 -> X2", "X1 -> Y", "X2 -> Y"]⟩
    let twin_network : TwinNetwork :=
      ⟨"X1=1, X2=0, Y=1", [("do(X1=0)", "X2=1, Y=1")]⟩
    let gt := extendCR st dd ["do(X1=0)"] causal_graph twin_network
    ⟨some gt.1, some gt.2⟩
  | _, _, _, _ => ⟨none, none⟩

/-- `late.py`'s `m2_desc`: the description when `analysis['M2']` is truthy
(`None` and the id `0` are both falsy in Python), else the literal
`"another object"`. -/
def lateM2Desc (M2 : Option Nat) (objects : List ObjProperty) : String :=
  match M2 with
  | some m2 => if m2 = 0 then "another object" else getObjectDescription m2 objects
  | none => "another object"

/-- The no-setting option list of the late "Why did S move?" question. -/
def lateWhyBase (m1d m2d sd : String) : List String :=
  ["Because the " ++ m1d ++ " moved toward the " ++ sd ++ ".",
   "Because the " ++ m2d ++ " moved toward the " ++ sd ++ ".",
   "Because the " ++ sd ++ " moved spontaneously."]

/-- The pre-shuffle correct answer of that question. -/
def lateWhyCorrect (m1d sd : String) : List String :=
  ["Because the " ++ m1d ++ " moved toward the " ++ sd ++ "."]

/-- The no-setting option list of the late actual-cause question. -/
def lateACBase (m1d m2d sd : String) : List String :=
  ["The " ++ m1d ++ " moves toward the " ++ sd ++ ".",
   "The " ++ m2d ++ " moves toward the " ++ sd ++ ".",
   "The " ++ m1d ++ " collides with the " ++ sd ++ ".",
   "The " ++ m2d ++ " collides with the " ++ sd ++ ".",
   "None."]

/-- The four-semantics mapping of the late actual-cause question (all four
semantics agree). -/
def lateACMapping (m1d sd : String) : List (String × List String) :=
  [("HP",
    ["The " ++ m1d ++ " moves toward the " ++ sd ++ ".",
     "The " ++ m1d ++ " collides with the " ++ sd ++ "."]),
   ("BV",
    ["The " ++ m1d ++ " moves toward the " ++ sd ++ ".",
     "The " ++ m1d ++ " collides with the " ++ sd ++ "."]),
   ("DBV",
    ["The " ++ m1d ++ " moves toward the " ++ sd ++ ".",
     "The " ++ m1d ++ " collides with the " ++ sd ++ "."]),
   ("Boc",
    ["The " ++ m1d ++ " moves toward the " ++ sd ++ ".",
     "The " ++ m1d ++ " collides with the " ++ sd ++ "."])]

/-- `LateScenarioQAGenerator.generate_qa_templates` (its guard requires only
`M1` and `S`; an unresolved `M2` degrades to the `"another object"` text). -/
def lateGenerateQA (st : Option SettingType) (shuffleA shuffleB : List String → List String)
    (data : SimData) (analysis : LateAnalysis) : Option (List QAPair) :=
  match analysis.M1, analysis.S with
  | some m1, some s =>
    let objects := data.object_property
    let m1_desc := getObjectDescription m1 objects
    let s_desc := getObjectDescription s objects
    let m2_desc := lateM2Desc analysis.M2 objects
    let dd := distractorDescs st objects analysis.added_static analysis.added_moving
    let whyOptions := optionsWithDistractors st dd wasPresent (lateWhyBase m1_desc m2_desc s_desc)
    let acOptions := optionsWithDistractors st dd isPresent (lateACBase m1_desc m2_desc s_desc)
    match
      mkMultiChoice ("Why did the " ++ s_desc ++ " move?") "causal_attribution" "discovery"
        (lateWhyCorrect m1_desc s_desc) (shuffleA whyOptions),
      mkActualCause ("What is the actual cause of the " ++ s_desc ++ " moving?")
        (lateACMapping m1_desc s_desc) (shuffleB acOptions) with
    | some whyQA, some acQA =>
      some
        [ynQA ("Does the " ++ m1_desc ++ "'s collision with the " ++ s_desc ++
            " affect the " ++ s_desc ++ "'s motion?")
           "Yes" "causality_identification" "discovery",
         ynQA ("Does the " ++ m2_desc ++ "'s collision with the " ++ s_desc ++
            " affect the " ++ s_desc ++ "'s motion?")
           "Yes" "causality_identification" "discovery",
         ynQA ("Does the " ++ m1_desc ++ "'s collision with the " ++ s_desc ++
            " affect the " ++ m2_desc ++ "'s collision with the " ++ s_desc ++ "?")
           "Yes" "causality_identification" "discovery",
         whyQA,
         ynQA ("If we force the " ++ m1_desc ++ " not to move toward the " ++ s_desc ++
            ", will the " ++ m2_desc ++ " cause the " ++ s_desc ++ " to move?")
           "Yes" "individual_causal_effect" "intervention",
         ynQA ("If we force the " ++ m2_desc ++ " not to move toward the " ++ s_desc ++
            ", will the " ++ m1_desc ++ " cause the " ++ s_desc ++ " to move?")
           "Yes" "individual_causal_effect" "intervention",
         ynQA ("If the " ++ m1_desc ++ " had not moved toward the " ++ s_desc ++
            ", would the " ++ s_desc ++ " still have moved?")
           "Yes" "counterfactual_reasoning" "counterfactual",
         ynQA ("If the " ++ m2_desc ++ " had not moved toward the " ++ s_desc ++
            ", would the " ++ s_desc ++ " still have moved?")
           "Yes" "counterfactual_reasoning" "counterfactual",
         ynQA ("Was the fact that the " ++ m1_desc ++ " moved toward the " ++ s_desc ++
            " sufficient for the " ++ s_desc ++ " to move?")
           "Yes" "sufficient_cause" "counterfactual",
         ynQA ("Was the fact that the " ++ m2_desc ++ " moved toward the " ++ s_desc ++
            " sufficient for the " ++ s_desc ++ " to move?")
           "Yes" "sufficient_cause" "counterfactual",
         ynQA ("Was the fact that the " ++ m1_desc ++ " moved toward the " ++ s_desc ++
            " necessary for the " ++ s_desc ++ " to move?")
           "No" "necessary_cause" "counterfactual",
         ynQA ("Was the fact that the " ++ m2_desc ++ " moved toward the " ++ s_desc ++
            " necessary for the " ++ s_desc ++ " to move?")
           "No" "necessary_cause" "counterfactual",
         acQA,
         ynQA ("Was the fact that the " ++ m1_desc ++ " moved toward the " ++ s_desc ++
            " responsible for the " ++ s_desc ++ " moving?")
           "Yes" "responsibility" "counterfactual",
         ynQA ("Was the fact that the " ++ m2_desc ++ " moved toward the " ++ s_desc ++
            " responsible for the " ++ s_desc ++ " moving?")
           "No" "responsibility" "counterfactual"]
    | _, _ => none
  | _, _ => some []

/-- `LateScenarioQAGenerator.generate_cr_templates`. -/
def lateGenerateCR (st : Option SettingType) (data : SimData)
    (analysis : LateAnalysis) : CRResult :=
  match analysis.M1, analysis.S with
  | some m1, some s =>
    let objects := data.object_property
    let m1_desc := getObjectDescription m1 objects
    let s_desc := getObjectDescription s objects
    let m2_desc := lateM2Desc analysis.M2 objects
    let dd := distractorDescs st objects analysis.added_static analysis.added_moving
    let causal_graph : CausalGraph :=
      ⟨[("X1", "The " ++ m1_desc ++ "'s motion toward the " ++ s_desc),
        ("X2", "The " ++ m2_desc ++ "'s motion toward the " ++ s_desc),
        ("Z1", "The " ++ m1_desc ++ "'s collision with the " ++ s_desc),
        ("Z2", "The " ++ m2_desc ++ "'s collision with the " ++ s_desc),
        ("Y", "The " ++ s_desc ++ "'s motion")],
       ["X1 -> Z1", "X2 -> Z2", "Z1 -> Z2", "Z1 -> Y", "Z2 -> Y"]⟩
    let twin_network : TwinNetwork :=
      ⟨"X1=1, X2=1, Z1=1, Z2=0, Y=1",
       [("do(X1=0)", "X2=1, Z1=0, Z2=1, Y=1"), ("do(X2=0)", "X1=1, Z1=1, Z2=0, Y=1")]⟩
    let gt := extendCR st dd ["do(X1=0)", "do(X2=0)"] causal_graph twin_network
    ⟨some gt.1, some gt.2⟩
  | _, _ => ⟨none, none⟩

/-- The no-setting option list of the double "Why did S move?" question. -/
def doubleWhyBase (m1d m2d m3d sd : String) : List String :=
  ["Because the " ++ m1d ++ " collided with the " ++ sd ++ ".",
   "Because the " ++ m2d ++ " did not collide with the " ++ m1d ++ ".",
   "Because the " ++ m3d ++ " collided with the " ++ m2d ++ ".",
   "Because the " ++ sd ++ " moved spontaneously."]

/-- The pre-shuffle correct answer of that question. -/
def doubleWhyCorrect (m1d sd : String) : List String :=
  ["Because the " ++ m1d ++ " collided with the " ++ sd ++ "."]

/-- The no-setting option list of the double actual-cause question. -/
def doubleACBase (m1d m2d m3d sd : String) : List String :=
  ["The " ++ m1d ++ " moves toward the " ++ sd ++ ".",
   "The " ++ m1d ++ " collides with the " ++ sd ++ ".",
   "The " ++ m2d ++ " moves toward the " ++ m1d ++ ".",
   "The " ++ m2d ++ " does not collide with the " ++ m1d ++ ".",
   "The " ++ m3d ++ " moves toward the " ++ m2d ++ ".",
   "The " ++ m3d ++ " collides with the " ++ m2d ++ ".",
   "None."]

/-- The four-semantics mapping of the double actual-cause question. -/
def doubleACMapping (m1d m2d m3d sd : String) : List (String × List String) :=
  [("HP",
    ["The " ++ m1d ++ " moves toward the " ++ sd ++ ".",
     "The " ++ m1d ++ " collides with the " ++ sd ++ ".",
     "The " ++ m2d ++ " does not collide with the " ++ m1d ++ ".",
     "The " ++ m3d ++ " moves toward the " ++ m2d ++ ".",
     "The " ++ m3d ++ " collides with the " ++ m2d ++ "."]),
   ("BV",
    ["The " ++ m1d ++ " moves toward the " ++ sd ++ ".",
     "The " ++ m1d ++ " collides with the " ++ sd ++ ".",
     "The " ++ m2d ++ " does not collide with the " ++ m1d ++ ".",
     "The " ++ m3d ++ " moves toward the " ++ m2d ++ ".",
     "The " ++ m3d ++ " collides with the " ++ m2d ++ "."]),
   ("DBV",
    ["The " ++ m1d ++ " moves toward the " ++ sd ++ ".",
     "The " ++ m1d ++ " collides with the " ++ sd ++ "."]),
   ("Boc",
    ["The " ++ m1d ++ " moves toward the " ++ sd ++ ".",
     "The " ++ m1d ++ " collides with the " ++ sd ++ ".",
     "The " ++ m2d ++ " does not collide with the " ++ m1d ++ ".",
     "The " ++ m3d ++ " moves toward the " ++ m2d ++ ".",
     "The " ++ m3d ++ " collides with the " ++ m2d ++ "."])]

/-- `DoubleScenarioQAGenerator.generate_qa_templates`. -/
def doubleGenerateQA (st : Option SettingType) (shuffleA shuffleB : List String → List String)
    (data : SimData) (analysis : DoubleAnalysis) : Option (List QAPair) :=
  match analysis.M1, analysis.M2, analysis.M3, analysis.S with
  | some m1, some m2, some m3, some s =>
    let objects := data.object_property
    let m1_desc := getObjectDescription m1 objects
    let m2_desc := getObjectDescription m2 objects
    let m3_desc := getObjectDescription m3 objects
    let s_desc := getObjectDescription s objects
    let dd := distractorDescs st objects analysis.added_static analysis.added_moving
    let whyOptions :=
      optionsWithDistractors st dd wasPresent (doubleWhyBase m1_desc m2_desc m3_desc s_desc)
    let acOptions :=
      optionsWithDistractors st dd isPresent (doubleACBase m1_desc m2_desc m3_desc s_desc)
    match
      mkMultiChoice ("Why did the " ++ s_desc ++ " move?") "causal_attribution" "discovery"
        (doubleWhyCorrect m1_desc s_desc) (shuffleA whyOptions),
      mkActualCause ("What is the actual cause of the " ++ s_desc ++ " moving?")
        (doubleACMapping m1_desc m2_desc m3_desc s_desc) (shuffleB acOptions) with
    | some whyQA, some acQA =>
      some
        [ynQA ("Does the " ++ m1_desc ++ "'s collision with the " ++ s_desc ++
            " affect the " ++ s_desc ++ "'s motion?")
           "Yes" "causality_identification" "discovery",
         ynQA ("Does the " ++ m2_desc ++ "'s collision with the " ++ m1_desc ++
            " affect the " ++ s_desc ++ "'s motion?")
           "Yes" "causality_identification" "discovery",
         ynQA ("Does the " ++ m3_desc ++ "'s collision with the " ++ m2_desc ++
            " affect the " ++ s_desc ++ "'s motion?")
           "Yes" "causality_identification" "discovery",
         whyQA,
         ynQA ("If we force the " ++ m2_desc ++ " to collide with the " ++ m1_desc ++
            ", will the " ++ m1_desc ++ " cause the " ++ s_desc ++ " to move?")
           "No" "individual_causal_effect" "intervention",
         ynQA ("If we force the " ++ m3_desc ++ " not to collide with the " ++ m2_desc ++
            ", will the " ++ m1_desc ++ " cause the " ++ s_desc ++ " to move?")
           "No" "individual_causal_effect" "intervention",
         ynQA ("If we force the " ++ m3_desc ++ " not to collide with the " ++ m2_desc ++
            ", will the " ++ m2_desc ++ " cause the " ++ s_desc ++ " to stay stationary?")
           "Yes" "individual_causal_effect" "intervention",
         ynQA ("If the " ++ m1_desc ++ " had not collided with the " ++ s_desc ++
            ", would the " ++ s_desc ++ " still have moved?")
           "No" "counterfactual_reasoning" "counterfactual",
         ynQA ("If the " ++ m2_desc ++ " had collided with the " ++ m1_desc ++
            ", would the " ++ s_desc ++ " still have moved?")
           "No" "counterfactual_reasoning" "counterfactual",
         ynQA ("If the " ++ m3_desc ++ " had not collided with the " ++ m2_desc ++
            ", would the " ++ s_desc ++ " still have moved?")
           "No" "counterfactual_reasoning" "counterfactual",
         ynQA ("Was the fact that the " ++ m1_desc ++ " collided with the " ++ s_desc ++
            " sufficient for the " ++ s_desc ++ " to move?")
           "Yes" "sufficient_cause" "counterfactual",
         ynQA ("Was the fact that the " ++ m2_desc ++ " did not collide with the " ++ m1_desc ++
            " sufficient for the " ++ s_desc ++ " to move?")
           "No" "sufficient_cause" "counterfactual",
         ynQA ("Was the fact that the " ++ m3_desc ++ " collided with the " ++ m2_desc ++
            " sufficient for the " ++ s_desc ++ " to move?")
           "No" "sufficient_cause" "counterfactual",
         ynQA ("Was the fact that the " ++ m1_desc ++ " collided with the " ++ s_desc ++
            " necessary for the " ++ s_desc ++ " to move?")
           "Yes" "necessary_cause" "counterfactual",
         ynQA ("Was the fact that the " ++ m2_desc ++ " did not collide with the " ++ m1_desc ++
            " necessary for the " ++ s_desc ++ " to move?")
           "Yes" "necessary_cause" "counterfactual",
         ynQA ("Was the fact that the " ++ m3_desc ++ " collided with the " ++ m2_desc ++
            " necessary for the " ++ s_desc ++ " to move?")
           "Yes" "necessary_cause" "counterfactual",
         acQA,
         ynQA ("Was the fact that the " ++ m1_desc ++ " collided with the " ++ s_desc ++
            " responsible for the " ++ s_desc ++ " moving?")
           "Yes" "responsibility" "counterfactual",
         ynQA ("Was the fact that the " ++ m2_desc ++ " did not collide with the " ++ m1_desc ++
            " responsible for the " ++ s_desc ++ " moving?")
           "No" "responsibility" "counterfactual",
         ynQA ("Was the fact that the " ++ m3_desc ++ " collided with the " ++ m2_desc ++
            " responsible for the " ++ s_desc ++ " moving?")
           "No" "responsibility" "counterfactual"]
    | _, _ => none
  | _, _, _, _ => some []

/-- `DoubleScenarioQAGenerator.generate_cr_templates`. -/
def doubleGenerateCR (st : Option SettingType) (data : SimData)
    (analysis : DoubleAnalysis) : CRResult :=
  match analysis.M1, analysis.M2, analysis.M3, analysis.S with
  | some m1, some m2, some m3, some s =>
    let objects := data.object_property
    let m1_desc := getObjectDescription m1 objects
    let m2_desc := getObjectDescription m2 objects
    let m3_desc := getObjectDescription m3 objects
    let s_desc := getObjectDescription s objects
    let dd := distractorDescs st objects analysis.added_static analysis.added_moving
    let causal_graph : CausalGraph :=
      ⟨[("X1", "The " ++ m1_desc ++ "'s collision with the " ++ s_desc),
        ("X2", "The " ++ m2_desc ++ "'s collision with the " ++ m1_desc),
        ("X3", "The " ++ m3_desc ++ "'s collision with the " ++ m2_desc),
        ("Z1", "The " ++ m1_desc ++ "'s motion toward the " ++ s_desc),
        ("Z2", "The " ++ m2_desc ++ "'s motion toward the " ++ m1_desc),
        ("Z3", "The " ++ m3_desc ++ "'s motion toward the " ++ m2_desc),
        ("Y", "The " ++ s_desc ++ "'s motion")],
       ["Z1 -> X1", "Z2 -> X2", "Z2 -> X3", "Z3 -> X3", "X1 -> Y", "X2 -> X1", "X3 -> X2"]⟩
    let twin_network : TwinNetwork :=
      ⟨"Z1=1, Z2=1, Z3=1, X1=1, X2=0, X3=1, Y=1",
       [("do(X1=0)", "Z1=1, Z2=?, Z3=?, X2=?, X3=?, Y=0"),
        ("do(X2=1)", "Z1=1, Z2=1, Z3=?, X1=0, X3=?, Y=0"),
        ("do(X3=0)", "Z1=1, Z2=1, Z3=1, X1=0, X2=1, Y=0")]⟩
    let gt := extendCR st dd ["do(X1=0)", "do(X2=1)", "do(X3=0)"] causal_graph twin_network
    ⟨some gt.1, some gt.2⟩
  | _, _, _, _ => ⟨none, none⟩

/-- The (static, moving) frame-zero counts that `_identify_objects_by_setting`
requires before it slices off distractors, per (scenario, setting). -/
def requiredCounts (scen : String) : SettingType → Nat × Nat
  | SettingType.add_one_static => if scen = "bogus" ∨ scen = "early" then (3, 2) else (2, 2)
  | SettingType.add_two_static => if scen = "bogus" ∨ scen = "early" then (4, 2) else (3, 2)
  | SettingType.add_one_moving => if scen = "double" then (1, 4) else (1, 3)
  | SettingType.add_two_moving => if scen = "double" then (1, 5) else (1, 4)

/-- A sum of three rational squares vanishes only when each term does:
`vecSub p2 p1` has zero squared magnitude iff the positions coincide. -/
theorem velocityMagnitudeSq_vecSub_eq_zero (p1 p2 : Vec3) :
    velocityMagnitudeSq (vecSub p2 p1) = 0 ↔ p2 = p1 := by
  unfold velocityMagnitudeSq vecSub
  dsimp only
  constructor
  · intro h
    have hx : p2.x - p1.x = 0 := by
      nlinarith [sq_nonneg (p2.x - p1.x), sq_nonneg (p2.y - p1.y), sq_nonneg (p2.z - p1.z)]
    have hy : p2.y - p1.y = 0 := by
      nlinarith [sq_nonneg (p2.x - p1.x), sq_nonneg (p2.y - p1.y), sq_nonneg (p2.z - p1.z)]
    have hz : p2.z - p1.z = 0 := by
      nlinarith [sq_nonneg (p2.x - p1.x), sq_nonneg (p2.y - p1.y), sq_nonneg (p2.z - p1.z)]
    obtain ⟨x2, y2, z2⟩ := p2
    obtain ⟨x1, y1, z1⟩ := p1
    simp only [Vec3.mk.injEq]
    refine ⟨by linarith, by linarith, by linarith⟩
  · intro h
    subst h
    ring

/-- C10: `_is_moving_towards` returns true iff the positions differ and the
dot product of the first object's velocity with the unit vector toward the
second object exceeds the 0.1 closing-speed threshold (stated over the reals,
with the unit-vector dot product written as `dot / sqrt (normSq)`), and it
returns false whenever the two positions coincide. -/
theorem C10_is_moving_towards_spec (p1 v1 p2 v2 : Vec3) :
    (isMovingTowards p1 v1 p2 v2 = true ↔
      p1 ≠ p2 ∧
        (1/10 : ℝ) <
          ((dot3 v1 (vecSub p2 p1) : ℚ) : ℝ) /
            Real.sqrt ((velocityMagnitudeSq (vecSub p2 p1) : ℚ) : ℝ)) ∧
    (p1 = p2 → isMovingTowards p1 v1 p2 v2 = false) := by
  have hzero := velocityMagnitudeSq_vecSub_eq_zero p1 p2
  unfold isMovingTowards
  by_cases h0 : velocityMagnitudeSq (vecSub p2 p1) = 0
  · have hp : p2 = p1 := hzero.mp h0
    simp only [h0, if_pos rfl]
    constructor
    · constructor
      · intro h; exact absurd h (by simp)
      · rintro ⟨hne, _⟩; exact absurd hp.symm hne
    · intro _; rfl
  · have hpne : p1 ≠ p2 := fun h => h0 (hzero.mpr h.symm)
    have hNnonneg : (0 : ℚ) ≤ velocityMagnitudeSq (vecSub p2 p1) := by
      unfold velocityMagnitudeSq; positivity
    have hNpos : (0 : ℚ) < velocityMagnitudeSq (vecSub p2 p1) := by
      rcases lt_or_eq_of_le hNnonneg with h | h
      · exact h
      · exact absurd h.symm h0
    set N : ℚ := velocityMagnitudeSq (vecSub p2 p1) with hN
    set D : ℚ := dot3 v1 (vecSub p2 p1) with hD
    have hNR : (0 : ℝ) < (N : ℝ) := by exact_mod_cast hNpos
    have hsq : (0 : ℝ) < Real.sqrt (N : ℝ) := Real.sqrt_pos.mpr hNR
    simp only [if_neg h0, decide_eq_true_eq]
    constructor
    · constructor
      · rintro ⟨hDpos, hlt⟩
        refine ⟨hpne, ?_⟩
        have hDR : (0 : ℝ) < (D : ℝ) := by exact_mod_cast hDpos
        have hltR : (N : ℝ) < 100 * (D : ℝ) ^ 2 := by exact_mod_cast hlt
        have hsqlt : Real.sqrt (N : ℝ) < 10 * (D : ℝ) := by
          rw [Real.sqrt_lt' (by linarith)]
          nlinarith
        rw [div_lt_div_iff₀ (by norm_num) hsq]
        nlinarith
      · rintro ⟨_, hlt⟩
        rw [div_lt_div_iff₀ (by norm_num) hsq] at hlt
        have hDR : (0 : ℝ) < (D : ℝ) := by nlinarith
        have hsqlt : Real.sqrt (N : ℝ) < 10 * (D : ℝ) := by nlinarith
        rw [Real.sqrt_lt' (by linarith)] at hsqlt
        constructor
        · exact_mod_cast hDR
        · have : (N : ℝ) < 100 * (D : ℝ) ^ 2 := by nlinarith
          exact_mod_cast this
    · intro h
      exact absurd h hpne

/-- C8: for every scenario name and every distractor setting, when frame
zero holds fewer stationary or moving objects than that (scenario, setting)
combination requires, the role identifier leaves both added-distractor lists
empty and returns the full frame-zero classification lists unchanged (and,
being a total function, does not raise). -/
theorem C8_identifier_silent_degrade (scen : String) (st : SettingType)
    (trajectory : List Frame) (_hne : trajectory ≠ [])
    (hcnt :
      (classifyFirstFrame (trajectory.headD ⟨[]⟩).objects).1.length <
          (requiredCounts scen st).1 ∨
        (classifyFirstFrame (trajectory.headD ⟨[]⟩).objects).2.length <
          (requiredCounts scen st).2) :
    identifyObjectsBySetting scen trajectory (some st) =
      ⟨(classifyFirstFrame (trajectory.headD ⟨[]⟩).objects).1,
       (classifyFirstFrame (trajectory.headD ⟨[]⟩).objects).2, [], []⟩ := by
  cases st <;>
    [skip; skip; skip; skip] <;>
    · first
      | (by_cases h : scen = "bogus" ∨ scen = "early" <;>
          · simp only [identifyObjectsBySetting, requiredCounts, h, if_true, if_false,
              eq_self_iff_true, if_pos, if_neg, not_false_iff] at hcnt ⊢
            rw [if_neg (by omega)])
      | (by_cases h : scen = "double" <;>
          · simp only [identifyObjectsBySetting, requiredCounts, h, if_true, if_false,
              eq_self_iff_true, if_pos, if_neg, not_false_iff] at hcnt ⊢
            rw [if_neg (by omega)])

/-- A one-object, one-frame scene (object 0 at rest): too few objects for any
distractor setting. -/
def c8Frame : Frame := ⟨[⟨0, ⟨0, 0, 0⟩, ⟨0, 0, 0⟩⟩]⟩

/-- Witness for C8 at a concrete input: one static object under
`add_one_static` (which needs 2 static + 2 moving for overdetermination). -/
theorem C8_witness :
    identifyObjectsBySetting "overdetermination" [c8Frame] (some SettingType.add_one_static) =
      ⟨(classifyFirstFrame ([c8Frame].headD ⟨[]⟩).objects).1,
       (classifyFirstFrame ([c8Frame].headD ⟨[]⟩).objects).2, [], []⟩ :=
  C8_identifier_silent_degrade "overdetermination" SettingType.add_one_static [c8Frame]
    (by simp)
    (Or.inl (by
      rw [show requiredCounts "overdetermination" SettingType.add_one_static = (2, 2) from rfl]
      norm_num [classifyFirstFrame, velocityMagnitudeSq, c8Frame, List.filter]))

/-- C1: for each of the six scenario generators, whenever the analysis record
it is given has a required primary role unresolved (`none`) —
{M1, M2, S} for overdetermination and switch, {M1, M2, S1, S2} for bogus and
early, {M1, S} for late (its M2 degrades to fallback text rather than being
required), {M1, M2, M3, S} for double — `generate_qa_templates` returns the
empty list and `generate_cr_templates` returns a record with null
`causal_graph` and `twin_network`, for every setting and shuffle oracle, and
neither function raises (the QA synthesis returns `some`, never the
`none` that models a raised exception). -/
theorem C1_unresolved_roles_empty_results :
    (∀ (st : Option SettingType) (shA shB : List String → List String) (data : SimData)
        (a : OverdetAnalysis), a.M1 = none ∨ a.M2 = none ∨ a.S = none →
        overdetGenerateQA st shA shB data a = some [] ∧
        overdetGenerateCR st data a = ⟨none, none⟩) ∧
    (∀ (st : Option SettingType) (shA shB : List String → List String) (data : SimData)
        (a : SwitchAnalysis), a.M1 = none ∨ a.M2 = none ∨ a.S = none →
        switchGenerateQA st shA shB data a = some [] ∧
        switchGenerateCR st data a = ⟨none, none⟩) ∧
    (∀ (st : Option SettingType) (shA shB : List String → List String) (data : SimData)
        (a : BogusAnalysis), a.M1 = none ∨ a.M2 = none ∨ a.S1 = none ∨ a.S2 = none →
        bogusGenerateQA st shA shB data a = some [] ∧
        bogusGenerateCR st data a = ⟨none, none⟩) ∧
    (∀ (st : Option SettingType) (shA shB : List String → List String) (data : SimData)
        (a : EarlyAnalysis), a.M1 = none ∨ a.M2 = none ∨ a.S1 = none ∨ a.S2 = none →
        earlyGenerateQA st shA shB data a = some [] ∧
        earlyGenerateCR st data a = ⟨none, none⟩) ∧
    (∀ (st : Option SettingType) (shA shB : List String → List String) (data : SimData)
        (a : LateAnalysis), a.M1 = none ∨ a.S = none →
        lateGenerateQA st shA shB data a = some [] ∧
        lateGenerateCR st data a = ⟨none, none⟩) ∧
    (∀ (st : Option SettingType) (shA shB : List String → List String) (data : SimData)
        (a : DoubleAnalysis), a.M1 = none ∨ a.M2 = none ∨ a.M3 = none ∨ a.S = none →
        doubleGenerateQA st shA shB data a = some [] ∧
        doubleGenerateCR st data a = ⟨none, none⟩) := by
  refine ⟨?_, ?_, ?_, ?_, ?_, ?_⟩
  · intro st shA shB data a h
    obtain ⟨M1, M2, S, ev, ci, sc, as1, am1⟩ := a
    cases M1 <;> cases M2 <;> cases S <;>
      first
        | exact ⟨rfl, rfl⟩
        | (exfalso; rcases h with h | h | h <;> exact Option.noConfusion h)
  · intro st shA shB data a h
    obtain ⟨M1, M2, S, ev, ci, cs, as1, am1⟩ := a
    cases M1 <;> cases M2 <;> cases S <;>
      first
        | exact ⟨rfl, rfl⟩
        | (exfalso; rcases h with h | h | h <;> exact Option.noConfusion h)
  · intro st shA shB data a h
    obtain ⟨M1, M2, S1, S2, ev, ci, co, mi, as1, am1⟩ := a
    cases M1 <;> cases M2 <;> cases S1 <;> cases S2 <;>
      first
        | exact ⟨rfl, rfl⟩
        | (exfalso; rcases h with h | h | h | h <;> exact Option.noConfusion h)
  · intro st shA shB data a h
    obtain ⟨M1, M2, S1, S2, ev, ci, cs, sf, as1, am1⟩ := a
    cases M1 <;> cases M2 <;> cases S1 <;> cases S2 <;>
      first
        | exact ⟨rfl, rfl⟩
        | (exfalso; rcases h with h | h | h | h <;> exact Option.noConfusion h)
  · intro st shA shB data a h
    obtain ⟨M1, M2, S, ev, ci, as1, am1⟩ := a
    cases M1 <;> cases S <;>
      first
        | exact ⟨rfl, rfl⟩
        | (exfalso; rcases h with h | h <;> exact Option.noConfusion h)
  · intro st shA shB data a h
    obtain ⟨M1, M2, M3, S, ev, ci, cs, td, as1, am1⟩ := a
    cases M1 <;> cases M2 <;> cases M3 <;> cases S <;>
      first
        | exact ⟨rfl, rfl⟩
        | (exfalso; rcases h with h | h | h | h <;> exact Option.noConfusion h)

/-- An all-unresolved overdetermination analysis record. -/
def emptyOverdetAnalysis : OverdetAnalysis := ⟨none, none, none, [], [], false, [], []⟩

/-- The empty scene record. -/
def emptyData : SimData := ⟨[], [], []⟩

/-- Witness for C1 at a concrete input: the overdetermination generator on an
all-unresolved analysis. -/
theorem C1_witness :
    overdetGenerateQA none id id emptyData emptyOverdetAnalysis = some [] ∧
    overdetGenerateCR none emptyData emptyOverdetAnalysis = ⟨none, none⟩ :=
  C1_unresolved_roles_empty_results.1 none id id emptyData emptyOverdetAnalysis (Or.inl rfl)

/-- `listIndex` returns an index that reads back the sought string. -/
theorem listIndex_getD (l : List String) (a : String) :
    ∀ i, listIndex l a = some i → l.getD i "" = a := by
  induction l with
  | nil => intro i h; exact absurd h (by simp [listIndex])
  | cons b bs ih =>
    intro i h
    by_cases hb : b = a
    · rw [listIndex, if_pos hb] at h
      cases h
      exact hb
    · rw [listIndex, if_neg hb] at h
      cases hj : listIndex bs a with
      | none => rw [hj] at h; exact absurd h (by simp)
      | some j =>
        rw [hj] at h
        have h2 : some (j + 1) = some i := h
        cases h2
        exact ih j hj

/-- `indexList` returns indices that read back exactly the correct-answer
list, in order. -/
theorem indexList_map_getD (shuffled : List String) :
    ∀ (correct : List String) (idxs : List Nat),
      indexList shuffled correct = some idxs →
      idxs.map (fun i => shuffled.getD i "") = correct := by
  intro correct
  induction correct with
  | nil => intro idxs h; cases h; rfl
  | cons a rest ih =>
    intro idxs h
    rw [indexList] at h
    cases hi : listIndex shuffled a with
    | none => rw [hi] at h; exact absurd h (by simp)
    | some i =>
      rw [hi] at h
      cases hrest : indexList shuffled rest with
      | none => rw [hrest] at h; exact absurd h (by simp)
      | some tl =>
        rw [hrest] at h
        cases h
        simp only [List.map_cons, List.cons.injEq]
        exact ⟨listIndex_getD shuffled a i hi, ih tl hrest⟩

/-- Insertion keeps the multiset of elements. -/
theorem insertSorted_perm (a : Nat) (l : List Nat) : (insertSorted a l).Perm (a :: l) := by
  induction l with
  | nil => simp [insertSorted]
  | cons b bs ih =>
    by_cases hab : a ≤ b
    · simp [insertSorted, hab]
    · simp only [insertSorted, if_neg hab]
      exact (List.Perm.cons b ih).trans (List.Perm.swap a b bs)

/-- `sortNat` permutes its input. -/
theorem sortNat_perm (l : List Nat) : (sortNat l).Perm l := by
  induction l with
  | nil => rfl
  | cons a bs ih =>
    exact (insertSorted_perm a (sortNat bs)).trans (List.Perm.cons a ih)

/-- The index list of a single-answer multiple-choice answer. -/
def choiceIdxs : Answer → List Nat
  | Answer.choice l => l
  | _ => []

/-- The per-semantics index lists of an actual-cause answer. -/
def perDefAnswers : Answer → List (String × List Nat)
  | Answer.per_def l => l
  | _ => []

/-- `mkMultiChoice` success: the pair's options are the shuffled list and its
answer indices read back exactly the correct-answer set. -/
theorem mkMultiChoice_sound (q qt rung : String) (correct shuffled : List String)
    (qa : QAPair) (h : mkMultiChoice q qt rung correct shuffled = some qa) :
    qa.options = shuffled ∧
    ((choiceIdxs qa.answer).map (fun i => qa.options.getD i "")).toFinset =
      correct.toFinset := by
  unfold mkMultiChoice at h
  cases hidx : indexList shuffled correct with
  | none => rw [hidx] at h; exact absurd h (by simp)
  | some idxs =>
    rw [hidx] at h
    cases h
    refine ⟨rfl, ?_⟩
    dsimp only [choiceIdxs]
    have hperm : ((sortNat idxs).map (fun i => shuffled.getD i "")).Perm
        (idxs.map (fun i => shuffled.getD i "")) := (sortNat_perm idxs).map _
    rw [List.toFinset_eq_of_perm _ _ hperm, indexList_map_getD shuffled correct idxs hidx]

/-- `indexMapping` success: every produced per-semantics entry reads back the
string set of the corresponding mapping entry. -/
theorem indexMapping_sound (shuffled : List String) :
    ∀ (mapping : List (String × List String)) (res : List (String × List Nat)),
      indexMapping shuffled mapping = some res →
      ∀ p ∈ res, ∃ cs, (p.1, cs) ∈ mapping ∧
        ((p.2).map (fun i => shuffled.getD i "")).toFinset = cs.toFinset := by
  intro mapping
  induction mapping with
  | nil => intro res h p hp; cases h; simp at hp
  | cons entry rest ih =>
    intro res h p hp
    obtain ⟨d, cs⟩ := entry
    rw [indexMapping] at h
    cases hidx : indexList shuffled cs with
    | none => rw [hidx] at h; exact absurd h (by simp)
    | some idxs =>
      rw [hidx] at h
      cases hrest : indexMapping shuffled rest with
      | none => rw [hrest] at h; exact absurd h (by simp)
      | some tl =>
        rw [hrest] at h
        cases h
        rcases List.mem_cons.mp hp with hp | hp
        · subst hp
          refine ⟨cs, List.mem_cons_self _ _, ?_⟩
          dsimp only
          have hperm : ((sortNat idxs).map (fun i => shuffled.getD i "")).Perm
              (idxs.map (fun i => shuffled.getD i "")) := (sortNat_perm idxs).map _
          rw [List.toFinset_eq_of_perm _ _ hperm, indexList_map_getD shuffled cs idxs hidx]
        · obtain ⟨cs', hmem, heq⟩ := ih tl hrest p hp
          exact ⟨cs', List.mem_cons_of_mem _ hmem, heq⟩

/-- `mkActualCause` success: the pair's options are the shuffled list and
each semantics' answer indices read back that semantics' correct-answer
set. -/
theorem mkActualCause_sound (q : String) (mapping : List (String × List String))
    (shuffled : List String) (qa : QAPair)
    (h : mkActualCause q mapping shuffled = some qa) :
    qa.options = shuffled ∧
    ∀ p ∈ perDefAnswers qa.answer, ∃ cs, (p.1, cs) ∈ mapping ∧
      ((p.2).map (fun i => qa.options.getD i "")).toFinset = cs.toFinset := by
  unfold mkActualCause at h
  cases hidx : indexMapping shuffled mapping with
  | none => rw [hidx] at h; exact absurd h (by simp)
  | some res =>
    rw [hidx] at h
    cases h
    exact ⟨rfl, indexMapping_sound shuffled mapping res hidx⟩

/-- C2: for every multi-choice QA pair any generator synthesizes and every
permutation the shuffle may produce, the post-shuffle option list indexed by
the returned answer indices textually equals the pre-shuffle correct-answer
string set.  Stated (i) for `mkMultiChoice` and (ii) for the four-semantics
`mkActualCause` — the two synthesis steps through which all twelve
multi-choice sites of the six generators produce their pairs — quantified
over every shuffled list that is a permutation of the option list; and
instantiated on the full generator outputs for the two generators the claim
cites: (iii) the overdetermination generator's attribution pair (index 2
of its QA list) and actual-cause pair (index 11), and (iv) the bogus
generator's attribution pair (index 3) and actual-cause pair (index 15). -/
theorem C2_shuffle_answer_indices :
    (∀ (q qt rung : String) (correct options shuffled : List String) (qa : QAPair),
      shuffled.Perm options →
      mkMultiChoice q qt rung correct shuffled = some qa →
      ((choiceIdxs qa.answer).map (fun i => qa.options.getD i "")).toFinset =
        correct.toFinset) ∧
    (∀ (q : String) (mapping : List (String × List String)) (options shuffled : List String)
        (qa : QAPair),
      shuffled.Perm options →
      mkActualCause q mapping shuffled = some qa →
      ∀ p ∈ perDefAnswers qa.answer, ∃ cs, (p.1, cs) ∈ mapping ∧
        ((p.2).map (fun i => qa.options.getD i "")).toFinset = cs.toFinset) ∧
    (∀ (st : Option SettingType) (shA shB : List String → List String) (data : SimData)
        (a : OverdetAnalysis) (m1 m2 s : Nat) (l : List QAPair),
      a.M1 = some m1 → a.M2 = some m2 → a.S = some s →
      overdetGenerateQA st shA shB data a = some l →
      ∃ whyQA acQA, l[2]? = some whyQA ∧ l[11]? = some acQA ∧
        ((choiceIdxs whyQA.answer).map (fun i => whyQA.options.getD i "")).toFinset =
          (overdetWhyCorrect (getObjectDescription m1 data.object_property)
            (getObjectDescription m2 data.object_property)
            (getObjectDescription s data.object_property)).toFinset ∧
        ∀ p ∈ perDefAnswers acQA.answer, ∃ cs,
          (p.1, cs) ∈ overdetACMapping (getObjectDescription m1 data.object_property)
            (getObjectDescription m2 data.object_property)
            (getObjectDescription s data.object_property) ∧
          ((p.2).map (fun i => acQA.options.getD i "")).toFinset = cs.toFinset) ∧
    (∀ (st : Option SettingType) (shA shB : List String → List String) (data : SimData)
        (a : BogusAnalysis) (m1 m2 s1 s2 : Nat) (l : List QAPair),
      a.M1 = some m1 → a.M2 = some m2 → a.S1 = some s1 → a.S2 = some s2 →
      bogusGenerateQA st shA shB data a = some l →
      ∃ whyQA acQA, l[3]? = some whyQA ∧ l[15]? = some acQA ∧
        ((choiceIdxs whyQA.answer).map (fun i => whyQA.options.getD i "")).toFinset =
          (bogusWhyCorrect (getObjectDescription m2 data.object_property)
            (getObjectDescription s2 data.object_property)).toFinset ∧
        ∀ p ∈ perDefAnswers acQA.answer, ∃ cs,
          (p.1, cs) ∈ bogusACMapping (getObjectDescription m1 data.object_property)
            (getObjectDescription m2 data.object_property)
            (getObjectDescription s1 data.object_property)
            (getObjectDescription s2 data.object_property) ∧
          ((p.2).map (fun i => acQA.options.getD i "")).toFinset = cs.toFinset) := by
  refine ⟨?_, ?_, ?_, ?_⟩
  · intro q qt rung correct options shuffled qa _ h
    exact (mkMultiChoice_sound q qt rung correct shuffled qa h).2
  · intro q mapping options shuffled qa _ h
    exact (mkActualCause_sound q mapping shuffled qa h).2
  · intro st shA shB data a m1 m2 s l hM1 hM2 hS hqa
    obtain ⟨M1, M2, S, ev, ci, sc, as1, am1⟩ := a
    simp only at hM1 hM2 hS
    subst hM1; subst hM2; subst hS
    simp only [overdetGenerateQA] at hqa
    split at hqa
    · rename_i whyQA acQA hwhy hac
      cases hqa
      refine ⟨whyQA, acQA, rfl, rfl, ?_, ?_⟩
      · exact (mkMultiChoice_sound _ _ _ _ _ _ hwhy).2
      · exact (mkActualCause_sound _ _ _ _ hac).2
    · cases hqa
  · intro st shA shB data a m1 m2 s1 s2 l hM1 hM2 hS1 hS2 hqa
    obtain ⟨M1, M2, S1, S2, ev, ci, co, mi, as1, am1⟩ := a
    simp only at hM1 hM2 hS1 hS2
    subst hM1; subst hM2; subst hS1; subst hS2
    simp only [bogusGenerateQA] at hqa
    split at hqa
    · rename_i whyQA acQA hwhy hac
      cases hqa
      refine ⟨whyQA, acQA, rfl, rfl, ?_, ?_⟩
      · exact (mkMultiChoice_sound _ _ _ _ _ _ hwhy).2
      · exact (mkActualCause_sound _ _ _ _ hac).2
    · cases hqa

/-- The pair `mkMultiChoice` produces for correct answers `["a"]` and
shuffled options `["b", "a"]`. -/
def c2QA : QAPair :=
  { question := "q", answer := Answer.choice [1], question_type := "t",
    question_rung := "r", answer_type := "multi_choice", options := ["b", "a"] }

/-- Witness for C2 at a concrete input: options `["a", "b"]` shuffled to
`["b", "a"]`; the computed index 1 reads back the correct answer set. -/
theorem C2_witness :
    ((choiceIdxs c2QA.answer).map (fun i => c2QA.options.getD i "")).toFinset =
      (["a"] : List String).toFinset :=
  C2_shuffle_answer_indices.1 "q" "t" "r" ["a"] ["a", "b"] ["b", "a"] c2QA
    (by decide) rfl

/-- `_get_object_description` never returns the empty string (it always
contains a space or the `object ` prefix), so a computed distractor
description is always truthy in Python. -/
theorem getObjectDescription_ne_empty (i : Nat) (objects : List ObjProperty) :
    getObjectDescription i objects ≠ "" := by
  unfold getObjectDescription
  cases h : objects.find? (fun o => o.object_id == i) with
  | some o =>
    intro hcon
    have hlen := congrArg String.length hcon
    simp [String.length_append] at hlen
    exact absurd hlen.1.2 (by decide)
  | none =>
    intro hcon
    have hlen := congrArg String.length hcon
    simp [String.length_append] at hlen
    exact absurd hlen.1 (by decide)

/-- The number of indicator variables a distractor setting adds. -/
def settingK : SettingType → Nat
  | SettingType.add_one_static => 1
  | SettingType.add_two_static => 2
  | SettingType.add_one_moving => 1
  | SettingType.add_two_moving => 2

/-- The assignment suffix a distractor setting appends to every world
string. -/
def indicatorSuffix : SettingType → String
  | SettingType.add_one_static => ", S=1"
  | SettingType.add_two_static => ", S1=1, S2=1"
  | SettingType.add_one_moving => ", M=1"
  | SettingType.add_two_moving => ", M1=1, M2=1"

/-- The indicator variables a distractor setting appends to the variable
map. -/
def indicatorVars (st : SettingType) (objects : List ObjProperty)
    (added_static added_moving : List Nat) : List (String × String) :=
  match st with
  | SettingType.add_one_static =>
    [("S", "The " ++ getObjectDescription (added_static.getD 0 0) objects ++ "'s presence")]
  | SettingType.add_two_static =>
    [("S1", "The " ++ getObjectDescription (added_static.getD 0 0) objects ++ "'s presence"),
     ("S2", "The " ++ getObjectDescription (added_static.getD 1 0) objects ++ "'s presence")]
  | SettingType.add_one_moving =>
    [("M", "The " ++ getObjectDescription (added_moving.getD 0 0) objects ++ "'s presence")]
  | SettingType.add_two_moving =>
    [("M1", "The " ++ getObjectDescription (added_moving.getD 0 0) objects ++ "'s presence"),
     ("M2", "The " ++ getObjectDescription (added_moving.getD 1 0) objects ++ "'s presence")]

/-- The distractor descriptions for a setting are available: the added-object
list the setting draws from is long enough. -/
def availForSetting (st : SettingType) (added_static added_moving : List Nat) : Prop :=
  match st with
  | SettingType.add_one_static => 1 ≤ added_static.length
  | SettingType.add_two_static => 2 ≤ added_static.length
  | SettingType.add_one_moving => 1 ≤ added_moving.length
  | SettingType.add_two_moving => 2 ≤ added_moving.length

/-- C7: for every scenario encoder, given a resolved analysis and an active
distractor setting whose distractor descriptions are available, the causal
graph keeps exactly the no-setting variable map extended by k indicator
variables (k = `settingK`, 1 for add-one settings and 2 for add-two settings)
with the edge list unchanged, and the twin network keeps every no-setting
world string extended by the indicator assignments set to 1 (the factual
world and each counterfactual world get the same `=1` suffix appended, so the
pre-existing assignment substring is a prefix and is unchanged). -/
theorem C7_distractor_extension :
    (∀ (st : SettingType) (data : SimData) (a : OverdetAnalysis) (m1 m2 s : Nat),
      a.M1 = some m1 → a.M2 = some m2 → a.S = some s →
      availForSetting st a.added_static a.added_moving →
      (overdetGenerateCR (some st) data a).causal_graph =
        some ⟨((overdetGenerateCR none data a).causal_graph.getD ⟨[], []⟩).vars ++
                indicatorVars st data.object_property a.added_static a.added_moving,
              ((overdetGenerateCR none data a).causal_graph.getD ⟨[], []⟩).edges⟩ ∧
      (overdetGenerateCR (some st) data a).twin_network =
        some ⟨((overdetGenerateCR none data a).twin_network.getD ⟨"", []⟩).factual_world ++
                indicatorSuffix st,
              ((overdetGenerateCR none data a).twin_network.getD
                  ⟨"", []⟩).counterfactual_world.map
                (fun p => (p.1, p.2 ++ indicatorSuffix st))⟩ ∧
      (indicatorVars st data.object_property a.added_static a.added_moving).length =
        settingK st) ∧
    (∀ (st : SettingType) (data : SimData) (a : SwitchAnalysis) (m1 m2 s : Nat),
      a.M1 = some m1 → a.M2 = some m2 → a.S = some s →
      availForSetting st a.added_static a.added_moving →
      (switchGenerateCR (some st) data a).causal_graph =
        some ⟨((switchGenerateCR none data a).causal_graph.getD ⟨[], []⟩).vars ++
                indicatorVars st data.object_property a.added_static a.added_moving,
              ((switchGenerateCR none data a).causal_graph.getD ⟨[], []⟩).edges⟩ ∧
      (switchGenerateCR (some st) data a).twin_network =
        some ⟨((switchGenerateCR none data a).twin_network.getD ⟨"", []⟩).factual_world ++
                indicatorSuffix st,
              ((switchGenerateCR none data a).twin_network.getD
                  ⟨"", []⟩).counterfactual_world.map
                (fun p => (p.1, p.2 ++ indicatorSuffix st))⟩ ∧
      (indicatorVars st data.object_property a.added_static a.added_moving).length =
        settingK st) ∧
    (∀ (st : SettingType) (data : SimData) (a : BogusAnalysis) (m1 m2 s1 s2 : Nat),
      a.M1 = some m1 → a.M2 = some m2 → a.S1 = some s1 → a.S2 = some s2 →
      availForSetting st a.added_static a.added_moving →
      (bogusGenerateCR (some st) data a).causal_graph =
        some ⟨((bogusGenerateCR none data a).causal_graph.getD ⟨[], []⟩).vars ++
                indicatorVars st data.object_property a.added_static a.added_moving,
              ((bogusGenerateCR none data a).causal_graph.getD ⟨[], []⟩).edges⟩ ∧
      (bogusGenerateCR (some st) data a).twin_network =
        some ⟨((bogusGenerateCR none data a).twin_network.getD ⟨"", []⟩).factual_world ++
                indicatorSuffix st,
              ((bogusGenerateCR none data a).twin_network.getD
                  ⟨"", []⟩).counterfactual_world.map
                (fun p => (p.1, p.2 ++ indicatorSuffix st))⟩ ∧
      (indicatorVars st data.object_property a.added_static a.added_moving).length =
        settingK st) ∧
    (∀ (st : SettingType) (data : SimData) (a : EarlyAnalysis) (m1 m2 s1 s2 : Nat),
      a.M1 = some m1 → a.M2 = some m2 → a.S1 = some s1 → a.S2 = some s2 →
      availForSetting st a.added_static a.added_moving →
      (earlyGenerateCR (some st) data a).causal_graph =
        some ⟨((earlyGenerateCR none data a).causal_graph.getD ⟨[], []⟩).vars ++
                indicatorVars st data.object_property a.added_static a.added_moving,
              ((earlyGenerateCR none data a).causal_graph.getD ⟨[], []⟩).edges⟩ ∧
      (earlyGenerateCR (some st) data a).twin_network =
        some ⟨((earlyGenerateCR none data a).twin_network.getD ⟨"", []⟩).factual_world ++
                indicatorSuffix st,
              ((earlyGenerateCR none data a).twin_network.getD
                  ⟨"", []⟩).counterfactual_world.map
                (fun p => (p.1, p.2 ++ indicatorSuffix st))⟩ ∧
      (indicatorVars st data.object_property a.added_static a.added_moving).length =
        settingK st) ∧
    (∀ (st : SettingType) (data : SimData) (a : LateAnalysis) (m1 s : Nat),
      a.M1 = some m1 → a.S = some s →
      availForSetting st a.added_static a.added_moving →
      (lateGenerateCR (some st) data a).causal_graph =
        some ⟨((lateGenerateCR none data a).causal_graph.getD ⟨[], []⟩).vars ++
                indicatorVars st data.object_property a.added_static a.added_moving,
              ((lateGenerateCR none data a).causal_graph.getD ⟨[], []⟩).edges⟩ ∧
      (lateGenerateCR (some st) data a).twin_network =
        some ⟨((lateGenerateCR none data a).twin_network.getD ⟨"", []⟩).factual_world ++
                indicatorSuffix st,
              ((lateGenerateCR none data a).twin_network.getD
                  ⟨"", []⟩).counterfactual_world.map
                (fun p => (p.1, p.2 ++ indicatorSuffix st))⟩ ∧
      (indicatorVars st data.object_property a.added_static a.added_moving).length =
        settingK st) ∧
    (∀ (st : SettingType) (data : SimData) (a : DoubleAnalysis) (m1 m2 m3 s : Nat),
      a.M1 = some m1 → a.M2 = some m2 → a.M3 = some m3 → a.S = some s →
      availForSetting st a.added_static a.added_moving →
      (doubleGenerateCR (some st) data a).causal_graph =
        some ⟨((doubleGenerateCR none data a).causal_graph.getD ⟨[], []⟩).vars ++
                indicatorVars st data.object_property a.added_static a.added_moving,
              ((doubleGenerateCR none data a).causal_graph.getD ⟨[], []⟩).edges⟩ ∧
      (doubleGenerateCR (some st) data a).twin_network =
        some ⟨((doubleGenerateCR none data a).twin_network.getD ⟨"", []⟩).factual_world ++
                indicatorSuffix st,
              ((doubleGenerateCR none data a).twin_network.getD
                  ⟨"", []⟩).counterfactual_world.map
                (fun p => (p.1, p.2 ++ indicatorSuffix st))⟩ ∧
      (indicatorVars st data.object_property a.added_static a.added_moving).length =
        settingK st) := by
  refine ⟨?_, ?_, ?_, ?_, ?_, ?_⟩
  · intro st data a m1 m2 s hM1 hM2 hS havail
    obtain ⟨M1, M2, S, ev, ci, sc, as1, am1⟩ := a
    simp only at hM1 hM2 hS havail
    subst hM1; subst hM2; subst hS
    cases st <;>
      simp_all [overdetGenerateCR, distractorDescs, extendCR, indicatorVars,
        indicatorSuffix, settingK, availForSetting, updAppend,
        getObjectDescription_ne_empty]
  · intro st data a m1 m2 s hM1 hM2 hS havail
    obtain ⟨M1, M2, S, ev, ci, cs, as1, am1⟩ := a
    simp only at hM1 hM2 hS havail
    subst hM1; subst hM2; subst hS
    cases st <;>
      simp_all [switchGenerateCR, distractorDescs, extendCR, indicatorVars,
        indicatorSuffix, settingK, availForSetting, updAppend,
        getObjectDescription_ne_empty]
  · intro st data a m1 m2 s1 s2 hM1 hM2 hS1 hS2 havail
    obtain ⟨M1, M2, S1, S2, ev, ci, co, mi, as1, am1⟩ := a
    simp only at hM1 hM2 hS1 hS2 havail
    subst hM1; subst hM2; subst hS1; subst hS2
    cases st <;>
      simp_all [bogusGenerateCR, distractorDescs, extendCR, indicatorVars,
        indicatorSuffix, settingK, availForSetting, updAppend,
        getObjectDescription_ne_empty]
  · intro st data a m1 m2 s1 s2 hM1 hM2 hS1 hS2 havail
    obtain ⟨M1, M2, S1, S2, ev, ci, cs, sf, as1, am1⟩ := a
    simp only at hM1 hM2 hS1 hS2 havail
    subst hM1; subst hM2; subst hS1; subst hS2
    cases st <;>
      simp_all [earlyGenerateCR, distractorDescs, extendCR, indicatorVars,
        indicatorSuffix, settingK, availForSetting, updAppend,
        getObjectDescription_ne_empty]
  · intro st data a m1 s hM1 hS havail
    obtain ⟨M1, M2, S, ev, ci, as1, am1⟩ := a
    simp only at hM1 hS havail
    subst hM1; subst hS
    cases st <;>
      simp_all [lateGenerateCR, distractorDescs, extendCR, indicatorVars,
        indicatorSuffix, settingK, availForSetting, updAppend,
        getObjectDescription_ne_empty]
  · intro st data a m1 m2 m3 s hM1 hM2 hM3 hS havail
    obtain ⟨M1, M2, M3, S, ev, ci, cs, td, as1, am1⟩ := a
    simp only at hM1 hM2 hM3 hS havail
    subst hM1; subst hM2; subst hM3; subst hS
    cases st <;>
      simp_all [doubleGenerateCR, distractorDescs, extendCR, indicatorVars,
        indicatorSuffix, settingK, availForSetting, updAppend,
        getObjectDescription_ne_empty]

/-- A resolved overdetermination analysis with one added static distractor. -/
def c7Analysis : OverdetAnalysis := ⟨some 1, some 2, some 0, [], [], false, [3], []⟩

/-- Witness for C7 at a concrete input: the overdetermination encoder under
`add_one_static` with distractor object 3. -/
theorem C7_witness :
    (overdetGenerateCR (some SettingType.add_one_static) emptyData c7Analysis).causal_graph =
      some ⟨((overdetGenerateCR none emptyData c7Analysis).causal_graph.getD ⟨[], []⟩).vars ++
              indicatorVars SettingType.add_one_static emptyData.object_property
                c7Analysis.added_static c7Analysis.added_moving,
            ((overdetGenerateCR none emptyData c7Analysis).causal_graph.getD ⟨[], []⟩).edges⟩ ∧
    (overdetGenerateCR (some SettingType.add_one_static) emptyData c7Analysis).twin_network =
      some ⟨((overdetGenerateCR none emptyData
                c7Analysis).twin_network.getD ⟨"", []⟩).factual_world ++
              indicatorSuffix SettingType.add_one_static,
            ((overdetGenerateCR none emptyData c7Analysis).twin_network.getD
                ⟨"", []⟩).counterfactual_world.map
              (fun p => (p.1, p.2 ++ indicatorSuffix SettingType.add_one_static))⟩ ∧
    (indicatorVars SettingType.add_one_static emptyData.object_property
        c7Analysis.added_static c7Analysis.added_moving).length =
      settingK SettingType.add_one_static :=
  C7_distractor_extension.1 SettingType.add_one_static emptyData c7Analysis 1 2 0 rfl rfl rfl
    (by norm_num [availForSetting, c7Analysis])

/-- A four-object scene: object 0 at rest, objects 1–3 moving, with two
collisions that involve objects 2 and 3 (not the first two moving ids). -/
def c3Frame : Frame :=
  ⟨[⟨0, ⟨0, 0, 0⟩, ⟨0, 0, 0⟩⟩, ⟨1, ⟨2, 0, 0⟩, ⟨-1, 0, 0⟩⟩,
    ⟨2, ⟨0, 3, 0⟩, ⟨0, -1, 0⟩⟩, ⟨3, ⟨5, 5, 0⟩, ⟨1, 0, 0⟩⟩]⟩

/-- The scene record built on `c3Frame` with collisions `{2,0}` and `{3,0}`. -/
def c3Data : SimData :=
  ⟨[], [c3Frame], [⟨[2, 0], 5, ⟨0, 0, 0⟩⟩, ⟨[3, 0], 5, ⟨0, 0, 0⟩⟩]⟩

/-- Frame-zero classification of `c3Frame`: object 0 static, 1–3 moving. -/
theorem c3Frame_classify : classifyFirstFrame c3Frame.objects = ([0], [1, 2, 3]) := by
  norm_num [classifyFirstFrame, velocityMagnitudeSq, c3Frame, List.filter]

/-- Counterexample to C3 as stated: with setting `add_one_moving` supplied on
`c3Data`, the role identifier slices the moving list to `[1, 2]`, yet the
overdetermination analyzer does not bind `M1` to its first id — the
collision-participant override rebinds `M1` to object 2 (and `M2` to the
distractor, object 3). -/
theorem C3_counterexample :
    (overdetAnalyze c3Data (some SettingType.add_one_moving)).M1 ≠
      some ((identifyObjectsBySetting "overdetermination" c3Data.motion_trajectory
        (some SettingType.add_one_moving)).moving_objects.getD 0 0) := by
  have hid : identifyObjectsBySetting "overdetermination" [c3Frame]
      (some SettingType.add_one_moving) = ⟨[0], [1, 2], [], [3]⟩ := by
    simp [identifyObjectsBySetting, c3Frame_classify]
  have hM1 : (overdetAnalyze c3Data (some SettingType.add_one_moving)).M1 = some 2 := by
    simp [overdetAnalyze, hid, c3Data, pySetList, sortNat, insertSorted]
  rw [hM1]
  have hid2 : identifyObjectsBySetting "overdetermination" c3Data.motion_trajectory
      (some SettingType.add_one_moving) = ⟨[0], [1, 2], [], [3]⟩ := hid
  rw [hid2]
  decide

/-- The overdetermination analyzer's deduplicated list of non-`S` collision
participants (its `collision_objects` local after `list(set(...))`). -/
def overdetCollisionObjects (data : SimData) (s : Nat) : List Nat :=
  pySetList (((data.collision.map (fun c => c.object_ids)).flatten).filter
    (fun j => decide (j ≠ s)))

/-- Frame-zero role identification of `c3Data` with no setting. -/
theorem c3Data_identify_none :
    identifyObjectsBySetting "overdetermination" [c3Frame] none = ⟨[0], [1, 2, 3], [], []⟩ := by
  simp [identifyObjectsBySetting, c3Frame_classify]

/-- Every event the shared approach check emits carries the frame index it was
emitted at. -/
theorem movingTowardsCheck_frame (objs : List ObjState) (i : Nat) (s t : Option Nat)
    (e : Event) (he : e ∈ movingTowardsCheck objs i s t) : e.frame = i := by
  simp only [movingTowardsCheck] at he
  repeat' split at he
  all_goals simp_all [movingTowardsEvent]

/-- Every event the motion-onset check emits carries the frame index it was
emitted at. -/
theorem startMovingCheck_frame (trajectory : List Frame) (objs : List ObjState) (i : Nat)
    (s : Option Nat) (e : Event) (he : e ∈ startMovingCheck trajectory objs i s) :
    e.frame = i := by
  simp only [startMovingCheck] at he
  repeat' split at he
  all_goals simp_all [startMovingEvent]

/-- Every event of one overdetermination frame scan carries its frame index. -/
theorem overdetFrameEvents_frame (trajectory : List Frame) (M1 M2 S : Option Nat)
    (i : Nat) (e : Event) (he : e ∈ overdetFrameEvents trajectory M1 M2 S i) :
    e.frame = i := by
  simp only [overdetFrameEvents, List.mem_append] at he
  rcases he with (he | he) | he
  · exact movingTowardsCheck_frame _ _ _ _ _ he
  · exact movingTowardsCheck_frame _ _ _ _ _ he
  · exact startMovingCheck_frame _ _ _ _ _ he

/-- Flat-mapping a per-index event generator over a non-decreasing index list
yields a frame-sorted event list. -/
theorem pairwise_frame_flatMap (f : Nat → List Event)
    (hf : ∀ i e, e ∈ f i → e.frame = i) :
    ∀ (l : List Nat), l.Pairwise (fun a b => a ≤ b) →
      (l.flatMap f).Pairwise (fun a b : Event => a.frame ≤ b.frame) := by
  intro l
  induction l with
  | nil => intro _; simp
  | cons x xs ih =>
    intro hl
    rw [List.flatMap_cons, List.pairwise_append]
    refine ⟨?_, ih hl.of_cons, ?_⟩
    · exact List.pairwise_of_forall_mem_list
        (fun a ha b hb => by rw [hf x a ha, hf x b hb])
    · intro a ha b hb
      rw [List.mem_flatMap] at hb
      obtain ⟨j, hj, hbj⟩ := hb
      rw [hf x a ha, hf j b hbj]
      exact (List.pairwise_cons.mp hl).1 j hj

/-- A fold whose step appends only current-frame events to the accumulator
preserves frame-sortedness along a non-decreasing index list. -/
theorem pairwise_frame_foldl (step : List Event × Bool → Nat → List Event × Bool)
    (hex : ∀ acc i, ∃ new, (step acc i).1 = acc.1 ++ new ∧ ∀ e ∈ new, e.frame = i) :
    ∀ (l : List Nat), l.Pairwise (fun a b => a ≤ b) →
    ∀ (acc : List Event × Bool),
      acc.1.Pairwise (fun a b : Event => a.frame ≤ b.frame) →
      (∀ e ∈ acc.1, ∀ i ∈ l, e.frame ≤ i) →
      ((l.foldl step acc).1).Pairwise (fun a b : Event => a.frame ≤ b.frame) := by
  intro l
  induction l with
  | nil => intro _ acc h1 _; simpa using h1
  | cons x xs ih =>
    intro hl acc h1 h2
    rw [List.foldl_cons]
    obtain ⟨new, hnew, hframe⟩ := hex acc x
    refine ih hl.of_cons (step acc x) ?_ ?_
    · rw [hnew, List.pairwise_append]
      refine ⟨h1, ?_, ?_⟩
      · exact List.pairwise_of_forall_mem_list
          (fun a ha b hb => by rw [hframe a ha, hframe b hb])
      · intro a ha b hb
        rw [hframe b hb]
        exact h2 a ha x (List.mem_cons_self x xs)
    · intro e he j hj
      rw [hnew, List.mem_append] at he
      rcases he with he | he
      · exact h2 e he j (List.mem_cons_of_mem x hj)
      · rw [hframe e he]
        exact (List.pairwise_cons.mp hl).1 j hj

/-- The switch frame step appends only events of the current frame. -/
theorem switchFrameStep_shape (t : List Frame) (M1 M2 S : Option Nat)
    (acc : List Event × Bool) (i : Nat) :
    ∃ new, (switchFrameStep t M1 M2 S acc i).1 = acc.1 ++ new ∧
      ∀ e ∈ new, e.frame = i := by
  simp only [switchFrameStep]
  repeat' split
  all_goals
    refine ⟨_, by simp only [List.append_assoc]; rfl, ?_⟩
  all_goals
    intro e he
  all_goals
    rcases List.mem_append.mp he with he | he
  all_goals
    try rcases List.mem_append.mp he with he | he
  all_goals
    try rcases List.mem_append.mp he with he | he
  all_goals
    first
      | exact movingTowardsCheck_frame _ _ _ _ _ he
      | exact startMovingCheck_frame _ _ _ _ _ he
      | (rcases List.mem_singleton.mp he with rfl; rfl)
      | exact absurd he (List.not_mem_nil e)

/-- The bogus frame step appends only events of the current frame. -/
theorem bogusFrameStep_shape (t : List Frame) (M1 M2 S2 : Option Nat)
    (acc : List Event × Bool) (i : Nat) :
    ∃ new, (bogusFrameStep t M1 M2 S2 acc i).1 = acc.1 ++ new ∧
      ∀ e ∈ new, e.frame = i := by
  simp only [bogusFrameStep]
  repeat' split
  all_goals
    refine ⟨_, by simp only [List.append_assoc]; rfl, ?_⟩
  all_goals
    intro e he
  all_goals
    rcases List.mem_append.mp he with he | he
  all_goals
    try rcases List.mem_append.mp he with he | he
  all_goals
    try rcases List.mem_append.mp he with he | he
  all_goals
    first
      | exact movingTowardsCheck_frame _ _ _ _ _ he
      | exact startMovingCheck_frame _ _ _ _ _ he
      | (rcases List.mem_singleton.mp he with rfl; rfl)
      | exact absurd he (List.not_mem_nil e)

/-- The overdetermination frame scan is frame-sorted. -/
theorem overdetScanEvents_sorted (t : List Frame) (M1 M2 S : Option Nat) :
    (overdetScanEvents t M1 M2 S).Pairwise (fun a b : Event => a.frame ≤ b.frame) :=
  pairwise_frame_flatMap _ (overdetFrameEvents_frame t M1 M2 S) _
    (List.pairwise_le_range t.length)

/-- The switch frame scan is frame-sorted. -/
theorem switchScanEvents_sorted (t : List Frame) (M1 M2 S : Option Nat) :
    (switchScanEvents t M1 M2 S).Pairwise (fun a b : Event => a.frame ≤ b.frame) :=
  pairwise_frame_foldl _ (switchFrameStep_shape t M1 M2 S) _
    (List.pairwise_le_range t.length) ([], false) (by simp) (by simp)

/-- The bogus frame scan is frame-sorted. -/
theorem bogusScanEvents_sorted (t : List Frame) (M1 M2 S2 : Option Nat) :
    (bogusScanEvents t M1 M2 S2).Pairwise (fun a b : Event => a.frame ≤ b.frame) :=
  pairwise_frame_foldl _ (bogusFrameStep_shape t M1 M2 S2) _
    (List.pairwise_le_range t.length) ([], false) (by simp) (by simp)

/-- A two-frame scene: object 0 at rest, objects 1 and 2 approaching it, with
one collision already at frame 0. -/
def c4Frame : Frame :=
  ⟨[⟨0, ⟨0, 0, 0⟩, ⟨0, 0, 0⟩⟩, ⟨1, ⟨2, 0, 0⟩, ⟨-1, 0, 0⟩⟩, ⟨2, ⟨0, 3, 0⟩, ⟨0, -1, 0⟩⟩]⟩

/-- The scene record built on two copies of `c4Frame` with a frame-0
collision `{1, 0}`. -/
def c4Data : SimData := ⟨[], [c4Frame, c4Frame], [⟨[1, 0], 0, ⟨0, 0, 0⟩⟩]⟩

/-- Frame-zero classification of `c4Frame`: object 0 static, 1 and 2 moving. -/
theorem c4Frame_classify : classifyFirstFrame c4Frame.objects = ([0], [1, 2]) := by
  norm_num [classifyFirstFrame, velocityMagnitudeSq, c4Frame, List.filter]

/-- Counterexample to C4 as stated: on `c4Data` the overdetermination
analyzer's event log is not sorted by frame — the frame-0 collision event is
appended after the frame-1 `moving_towards` events of the scan. -/
theorem C4_counterexample :
    ¬ List.Pairwise (fun a b : Event => a.frame ≤ b.frame)
      (overdetAnalyze c4Data none).events := by
  have hid : identifyObjectsBySetting "overdetermination" [c4Frame, c4Frame] none =
      ⟨[0], [1, 2], [], []⟩ := by
    simp [identifyObjectsBySetting, c4Frame_classify]
  have hAn : (overdetAnalyze c4Data none).events =
      overdetEvents c4Data (some 1) (some 2) (some 0) := by
    simp [overdetAnalyze, c4Data, hid, pySetList, sortNat, insertSorted]
  have hev : overdetEvents c4Data (some 1) (some 2) (some 0) =
      [movingTowardsEvent 0 1 0, movingTowardsEvent 0 2 0,
       movingTowardsEvent 1 1 0, movingTowardsEvent 1 2 0,
       collisionEvent ⟨[1, 0], 0, ⟨0, 0, 0⟩⟩] := by
    norm_num [overdetEvents, c4Data, overdetScanEvents, overdetFrameEvents,
      List.range_succ, movingTowardsCheck, startMovingCheck, lookupObj, c4Frame,
      isMovingTowards, velocityMagnitudeSq, vecSub, dot3]
  rw [hAn, hev]
  intro h
  have h2 := (List.pairwise_cons.mp ((List.pairwise_cons.mp
    ((List.pairwise_cons.mp h).2)).2)).1
  have h3 := h2 (collisionEvent ⟨[1, 0], 0, ⟨0, 0, 0⟩⟩) (by simp)
  simp [movingTowardsEvent, collisionEvent] at h3

/-- A passing `_is_moving_towards` test forces squared speed above `1/100`
(Cauchy–Schwarz: the closing-speed threshold `0.1` bounds the full speed). -/
theorem isMovingTowards_fast (p v q w : Vec3) (h : isMovingTowards p v q w = true) :
    1/100 < velocityMagnitudeSq v := by
  simp only [isMovingTowards] at h
  split at h
  · exact absurd h (by simp)
  · rename_i hd0
    rw [decide_eq_true_eq] at h
    obtain ⟨hdot, hn⟩ := h
    have hCS : (dot3 v (vecSub q p)) ^ 2 ≤
        velocityMagnitudeSq v * velocityMagnitudeSq (vecSub q p) := by
      simp only [dot3, velocityMagnitudeSq]
      nlinarith [sq_nonneg (v.x * (vecSub q p).y - v.y * (vecSub q p).x),
        sq_nonneg (v.x * (vecSub q p).z - v.z * (vecSub q p).x),
        sq_nonneg (v.y * (vecSub q p).z - v.z * (vecSub q p).y)]
    have hnn : (0:ℚ) ≤ velocityMagnitudeSq (vecSub q p) := by
      unfold velocityMagnitudeSq; positivity
    have hdpos : 0 < velocityMagnitudeSq (vecSub q p) := lt_of_le_of_ne hnn (Ne.symm hd0)
    nlinarith [hCS, hn, hdpos]

/-- The C5 fixture family: object 0 with arbitrary slow velocity, objects 1
and 2 arbitrary, trailing frames arbitrary, one `{1, 0}` and one `{2, 0}`
collision at arbitrary frames. -/
def c5Data (props : List ObjProperty) (rest : List Frame) (p0 v0 p1 v1 p2 v2 : Vec3)
    (fa fb : Nat) (la lb : Vec3) : SimData :=
  ⟨props, ⟨[⟨0, p0, v0⟩, ⟨1, p1, v1⟩, ⟨2, p2, v2⟩]⟩ :: rest,
    [⟨[1, 0], fa, la⟩, ⟨[2, 0], fb, lb⟩]⟩

/-- C5: with no setting, object 0 stationary at frame zero, objects 1 and 2
moving toward object 0, and one collision of each with object 0 within two
frames of each other, the overdetermination analyzer binds `S = 0`,
`{M1, M2} = {1, 2}` (deterministically `M1 = 1`, `M2 = 2` after the sorted
set of collision participants) and reports `simultaneous_collision = true`. -/
theorem C5_overdet_fixture (props : List ObjProperty) (rest : List Frame)
    (p0 v0 p1 v1 p2 v2 : Vec3) (fa fb : Nat) (la lb : Vec3)
    (h0 : velocityMagnitudeSq v0 < 1/10000)
    (h1 : isMovingTowards p1 v1 p0 v0 = true)
    (h2 : isMovingTowards p2 v2 p0 v0 = true)
    (_hfr : fa ≤ fb + 2 ∧ fb ≤ fa + 2) :
    (overdetAnalyze (c5Data props rest p0 v0 p1 v1 p2 v2 fa fb la lb) none).S = some 0 ∧
    (overdetAnalyze (c5Data props rest p0 v0 p1 v1 p2 v2 fa fb la lb) none).M1 = some 1 ∧
    (overdetAnalyze (c5Data props rest p0 v0 p1 v1 p2 v2 fa fb la lb) none).M2 = some 2 ∧
    (overdetAnalyze (c5Data props rest p0 v0 p1 v1 p2 v2 fa fb la lb) none).simultaneous_collision
      = true := by
  have hm1 : ¬ (velocityMagnitudeSq v1 < 1/10000) := by
    have hf := isMovingTowards_fast p1 v1 p0 v0 h1
    intro hc; linarith
  have hm2 : ¬ (velocityMagnitudeSq v2 < 1/10000) := by
    have hf := isMovingTowards_fast p2 v2 p0 v0 h2
    intro hc; linarith
  have d0 : decide (velocityMagnitudeSq v0 < 1/10000) = true := decide_eq_true h0
  have d1 : decide (velocityMagnitudeSq v1 < 1/10000) = false := decide_eq_false hm1
  have d2 : decide (velocityMagnitudeSq v2 < 1/10000) = false := decide_eq_false hm2
  have hcls : classifyFirstFrame [⟨0, p0, v0⟩, ⟨1, p1, v1⟩, ⟨2, p2, v2⟩] = ([0], [1, 2]) := by
    simp only [classifyFirstFrame, List.filter_cons, d0, d1, d2, Bool.not_true,
      Bool.not_false, if_true, if_false, List.filter_nil, List.map_cons, List.map_nil,
      ite_true, ite_false]
    rfl
  have hid : identifyObjectsBySetting "overdetermination"
      ((⟨[⟨0, p0, v0⟩, ⟨1, p1, v1⟩, ⟨2, p2, v2⟩]⟩ : Frame) :: rest) none =
      ⟨[0], [1, 2], [], []⟩ := by
    simp [identifyObjectsBySetting, hcls]
  have hsim : ([fa, fb].dedup).length ≤ 2 :=
    le_trans (List.Sublist.length_le (List.dedup_sublist _)) (by simp)
  refine ⟨?_, ?_, ?_, ?_⟩ <;>
    simp [overdetAnalyze, c5Data, hid, pySetList, sortNat, insertSorted, hsim]

/-- Witness for C5 at a concrete fixture: object 0 at rest at the origin,
object 1 at `(2,0,0)` with velocity `(-1,0,0)`, object 2 at `(0,3,0)` with
velocity `(0,-1,0)`, collisions at frames 10 and 11. -/
theorem C5_witness :
    (overdetAnalyze (c5Data [] [] ⟨0, 0, 0⟩ ⟨0, 0, 0⟩ ⟨2, 0, 0⟩ ⟨-1, 0, 0⟩ ⟨0, 3, 0⟩
      ⟨0, -1, 0⟩ 10 11 ⟨0, 0, 0⟩ ⟨0, 0, 0⟩) none).S = some 0 ∧
    (overdetAnalyze (c5Data [] [] ⟨0, 0, 0⟩ ⟨0, 0, 0⟩ ⟨2, 0, 0⟩ ⟨-1, 0, 0⟩ ⟨0, 3, 0⟩
      ⟨0, -1, 0⟩ 10 11 ⟨0, 0, 0⟩ ⟨0, 0, 0⟩) none).M1 = some 1 ∧
    (overdetAnalyze (c5Data [] [] ⟨0, 0, 0⟩ ⟨0, 0, 0⟩ ⟨2, 0, 0⟩ ⟨-1, 0, 0⟩ ⟨0, 3, 0⟩
      ⟨0, -1, 0⟩ 10 11 ⟨0, 0, 0⟩ ⟨0, 0, 0⟩) none).M2 = some 2 ∧
    (overdetAnalyze (c5Data [] [] ⟨0, 0, 0⟩ ⟨0, 0, 0⟩ ⟨2, 0, 0⟩ ⟨-1, 0, 0⟩ ⟨0, 3, 0⟩
      ⟨0, -1, 0⟩ 10 11 ⟨0, 0, 0⟩ ⟨0, 0, 0⟩) none).simultaneous_collision = true :=
  C5_overdet_fixture [] [] ⟨0, 0, 0⟩ ⟨0, 0, 0⟩ ⟨2, 0, 0⟩ ⟨-1, 0, 0⟩ ⟨0, 3, 0⟩ ⟨0, -1, 0⟩
    10 11 ⟨0, 0, 0⟩ ⟨0, 0, 0⟩
    (by norm_num [velocityMagnitudeSq])
    (by norm_num [isMovingTowards, vecSub, velocityMagnitudeSq, dot3])
    (by norm_num [isMovingTowards, vecSub, velocityMagnitudeSq, dot3])
    (by norm_num)

/-- Spec-side: the (squared distance, squared speed) pair of `M2` relative
to `S2` for each frame where both appear, in trajectory order. -/
def pairList (traj : List Frame) (m2 s2 : Nat) : List (ℚ × ℚ) :=
  traj.filterMap (fun fr =>
    match lookupObj fr.objects m2, lookupObj fr.objects s2 with
    | some a, some b =>
      some (calculateDistanceSq a.location b.location, velocityMagnitudeSq a.velocity)
    | _, _ => none)

/-- The momentum fold of `_analyze_collinearity_and_momentum`, related to the
spec-side `pairList`: the running minimum exceeds `1/4` iff every per-frame
squared distance does, and the carried speed is the last per-frame speed. -/
theorem momentumScan_spec (m2 s2 : Nat) :
    ∀ (traj : List Frame) (acc : Option ℚ × ℚ),
    ((match (traj.foldl
        (fun acc frame =>
          match lookupObj frame.objects m2, lookupObj frame.objects s2 with
          | some m2o, some s2o =>
            let dSq := calculateDistanceSq m2o.location s2o.location
            (some (match acc.1 with | none => dSq | some m => min m dSq),
             velocityMagnitudeSq m2o.velocity)
          | _, _ => acc)
        acc).1 with
      | none => True
      | some q => 1/4 < q) ↔
      ((match acc.1 with | none => True | some q => 1/4 < q) ∧
        ∀ pr ∈ pairList traj m2 s2, 1/4 < pr.1)) ∧
    (traj.foldl
        (fun acc frame =>
          match lookupObj frame.objects m2, lookupObj frame.objects s2 with
          | some m2o, some s2o =>
            let dSq := calculateDistanceSq m2o.location s2o.location
            (some (match acc.1 with | none => dSq | some m => min m dSq),
             velocityMagnitudeSq m2o.velocity)
          | _, _ => acc)
        acc).2 = ((pairList traj m2 s2).map Prod.snd).getLastD acc.2 := by
  intro traj
  induction traj with
  | nil => intro acc; simp [pairList]
  | cons fr rest ih =>
    intro acc
    rw [List.foldl_cons]
    cases hm : lookupObj fr.objects m2 <;> cases hs : lookupObj fr.objects s2 <;>
      simp only [pairList, List.filterMap_cons, hm, hs] <;>
      simp only [pairList] at ih
    · exact ih acc
    · exact ih acc
    · exact ih acc
    · constructor
      · rw [(ih _).1, List.forall_mem_cons]
        cases hacc : acc.1 <;> simp only [hacc, lt_min_iff] <;> tauto
      · rw [(ih _).2]
        simp only [List.map_cons, List.getLastD_cons]

/-- The code's `m2_insufficient_momentum` flag holds iff every frame where
both `M2` and `S2` appear keeps squared distance above `1/4` (distance
above `0.5`) and the last such frame's squared speed is below `1/100`
(speed below `0.1`, default `0` when no such frame exists). -/
theorem momentum_flag_spec (traj : List Frame) (m2 s1 s2 : Nat) :
    (analyzeCollinearityAndMomentum traj (some m2) (some s1) (some s2)).2 = true ↔
      (∀ pr ∈ pairList traj m2 s2, 1/4 < pr.1) ∧
        ((pairList traj m2 s2).map Prod.snd).getLastD 0 < 1/100 := by
  obtain ⟨h1, h2⟩ := momentumScan_spec m2 s2 traj (none, 0)
  simp only [analyzeCollinearityAndMomentum, bogusMomentumScan]
  rw [Bool.and_eq_true, decide_eq_true_eq, h2]
  have hb : ((match (traj.foldl
      (fun acc frame =>
        match lookupObj frame.objects m2, lookupObj frame.objects s2 with
        | some m2o, some s2o =>
          let dSq := calculateDistanceSq m2o.location s2o.location
          (some (match acc.1 with | none => dSq | some m => min m dSq),
           velocityMagnitudeSq m2o.velocity)
        | _, _ => acc)
      ((none : Option ℚ), (0:ℚ))).1 with
    | none => true
    | some q => decide (1/4 < q)) = true) ↔
      (match (traj.foldl
      (fun acc frame =>
        match lookupObj frame.objects m2, lookupObj frame.objects s2 with
        | some m2o, some s2o =>
          let dSq := calculateDistanceSq m2o.location s2o.location
          (some (match acc.1 with | none => dSq | some m => min m dSq),
           velocityMagnitudeSq m2o.velocity)
        | _, _ => acc)
      ((none : Option ℚ), (0:ℚ))).1 with
    | none => True
    | some q => 1/4 < q) := by
    cases (traj.foldl
      (fun acc frame =>
        match lookupObj frame.objects m2, lookupObj frame.objects s2 with
        | some m2o, some s2o =>
          let dSq := calculateDistanceSq m2o.location s2o.location
          (some (match acc.1 with | none => dSq | some m => min m dSq),
           velocityMagnitudeSq m2o.velocity)
        | _, _ => acc)
      ((none : Option ℚ), (0:ℚ))).1 <;> simp
  rw [hb, h1]
  simp

/-- The insufficient-momentum firing condition at frame `i`: `M2` present
with squared speed below `1/400` (speed `< 0.05`) and `S2` present at squared
distance above `9/100` (distance `> 0.3`). -/
def momentumCond (traj : List Frame) (m2 s2 : Nat) (i : Nat) : Bool :=
  match lookupObj ((traj.getD i ⟨[]⟩).objects) m2 with
  | some m2o =>
    decide (velocityMagnitudeSq m2o.velocity < 1/400) &&
      (match lookupObj ((traj.getD i ⟨[]⟩).objects) s2 with
       | some s2o => decide (9/100 < calculateDistanceSq m2o.location s2o.location)
       | none => false)
  | none => false

/-- Approach-check events are never `insufficient_momentum` events. -/
theorem movingTowardsCheck_filter_insuff (objs : List ObjState) (i : Nat)
    (a b : Option Nat) :
    (movingTowardsCheck objs i a b).filter
      (fun e => e.etype == "insufficient_momentum") = [] := by
  simp only [movingTowardsCheck]
  repeat' split
  all_goals rfl

/-- Motion-onset events are never `insufficient_momentum` events. -/
theorem startMovingCheck_filter_insuff (trajectory : List Frame) (objs : List ObjState)
    (i : Nat) (s : Option Nat) :
    (startMovingCheck trajectory objs i s).filter
      (fun e => e.etype == "insufficient_momentum") = [] := by
  simp only [startMovingCheck]
  repeat' split
  all_goals rfl

/-- One bogus frame step appends exactly one `insufficient_momentum` event
when the latch is clear and the firing condition holds, and sets the latch
iff it was set or the condition holds. -/
theorem bogusFrameStep_insuff (traj : List Frame) (M1 : Option Nat) (m2 s2 : Nat)
    (acc : List Event × Bool) (i : Nat) :
    ((bogusFrameStep traj M1 (some m2) (some s2) acc i).1.filter
        (fun e => e.etype == "insufficient_momentum") =
      acc.1.filter (fun e => e.etype == "insufficient_momentum") ++
        (if acc.2 = false ∧ momentumCond traj m2 s2 i = true
         then [insufficientMomentumEvent i m2 s2] else [])) ∧
    (bogusFrameStep traj M1 (some m2) (some s2) acc i).2 =
      (acc.2 || momentumCond traj m2 s2 i) := by
  cases hm2 : lookupObj ((traj.getD i ⟨[]⟩).objects) m2 with
  | none =>
    simp only [bogusFrameStep, momentumCond, hm2]
    constructor
    · simp [List.filter_append, movingTowardsCheck_filter_insuff,
        startMovingCheck_filter_insuff]
    · simp
  | some m2o =>
    cases hs2 : lookupObj ((traj.getD i ⟨[]⟩).objects) s2 with
    | none =>
      simp only [bogusFrameStep, momentumCond, hm2, hs2]
      constructor
      · split
        all_goals simp_all [List.filter_append, movingTowardsCheck_filter_insuff,
          startMovingCheck_filter_insuff]
      · split
        all_goals simp_all
    | some s2o =>
      simp only [bogusFrameStep, momentumCond, hm2, hs2]
      constructor
      · repeat' split
        all_goals simp_all [List.filter_append, movingTowardsCheck_filter_insuff,
          startMovingCheck_filter_insuff, insufficientMomentumEvent, List.filter]
        all_goals obtain ⟨h1, h2⟩ := by assumption
        all_goals try obtain ⟨h2a, h2b⟩ := h2
        all_goals linarith
      · repeat' split
        all_goals simp_all

/-- The latch invariant of the bogus frame scan: the `insufficient_momentum`
events of the scan are exactly one event at the first frame satisfying the
firing condition (none when no frame does). -/
theorem bogusScan_latch (traj : List Frame) (M1 : Option Nat) (m2 s2 : Nat) :
    ∀ n : Nat,
    (((List.range n).foldl (bogusFrameStep traj M1 (some m2) (some s2)) ([], false)).1.filter
        (fun e => e.etype == "insufficient_momentum") =
      (((List.range n).find? (momentumCond traj m2 s2)).map
        (fun i => insufficientMomentumEvent i m2 s2)).toList) ∧
    ((List.range n).foldl (bogusFrameStep traj M1 (some m2) (some s2)) ([], false)).2 =
      (List.range n).any (momentumCond traj m2 s2) := by
  intro n
  induction n with
  | zero => simp
  | succ k ih =>
    obtain ⟨ih1, ih2⟩ := ih
    obtain ⟨st1, st2⟩ := bogusFrameStep_insuff traj M1 m2 s2
      ((List.range k).foldl (bogusFrameStep traj M1 (some m2) (some s2)) ([], false)) k
    rw [List.range_succ, List.foldl_append, List.foldl_cons, List.foldl_nil,
      List.find?_append, List.any_append, st1, st2, ih1, ih2]
    by_cases hany : (List.range k).any (momentumCond traj m2 s2) = true
    · have hsome : ((List.range k).find? (momentumCond traj m2 s2)).isSome = true := by
        rw [List.find?_isSome]
        exact List.any_eq_true.mp hany
      obtain ⟨j, hj⟩ := Option.isSome_iff_exists.mp hsome
      rw [hj, hany]
      simp
    · have hfalse : (List.range k).any (momentumCond traj m2 s2) = false :=
        Bool.eq_false_iff.mpr hany
      have hnone : (List.range k).find? (momentumCond traj m2 s2) = none := by
        rw [List.find?_eq_none]
        intro x hx hpx
        exact hany (List.any_eq_true.mpr ⟨x, hx, hpx⟩)
      rw [hnone, hfalse]
      by_cases hck : momentumCond traj m2 s2 k = true
      · simp [hck, List.find?]
      · have hckf : momentumCond traj m2 s2 k = false := Bool.eq_false_iff.mpr hck
        simp [hckf, List.find?]

/-- C6: `m2_insufficient_momentum` is true iff the minimum `M2`-`S2` distance
over frames where both appear exceeds `0.5` (squared `1/4`; vacuously when
there is no such frame) and `M2`'s speed in the last such frame (default `0`)
is below `0.1` (squared `1/100`); and the frame scan appends exactly one
`insufficient_momentum` event, at the first frame where `M2`'s speed drops
below `0.05` while its distance to `S2` exceeds `0.3` (and no event when no
frame qualifies) — the latch fires once. -/
theorem C6_bogus_momentum :
    (∀ (traj : List Frame) (m2 s1 s2 : Nat),
      (analyzeCollinearityAndMomentum traj (some m2) (some s1) (some s2)).2 = true ↔
        (∀ pr ∈ pairList traj m2 s2, 1/4 < pr.1) ∧
          ((pairList traj m2 s2).map Prod.snd).getLastD 0 < 1/100) ∧
    (∀ (traj : List Frame) (M1 : Option Nat) (m2 s2 : Nat),
      (bogusScanEvents traj M1 (some m2) (some s2)).filter
          (fun e => e.etype == "insufficient_momentum") =
        (((List.range traj.length).find? (momentumCond traj m2 s2)).map
          (fun i => insufficientMomentumEvent i m2 s2)).toList) :=
  ⟨momentum_flag_spec,
   fun traj M1 m2 s2 => (bogusScan_latch traj M1 m2 s2 traj.length).1⟩

/-- One frame of `_analyze_late_events`: M1-towards-S, M2-towards-S,
S-starts-moving checks, in source order. -/
def lateFrameEvents (trajectory : List Frame) (M1 M2 S : Option Nat) (i : Nat) : List Event :=
  let objs := (trajectory.getD i ⟨[]⟩).objects
  movingTowardsCheck objs i M1 S ++ movingTowardsCheck objs i M2 S ++
    startMovingCheck trajectory objs i S

/-- The frame-scan portion of `_analyze_late_events`. -/
def lateScanEvents (trajectory : List Frame) (M1 M2 S : Option Nat) : List Event :=
  (List.range trajectory.length).flatMap (lateFrameEvents trajectory M1 M2 S)

/-- `_analyze_late_events`: the frame scan followed by the appended collision
events. -/
def lateEvents (data : SimData) (M1 M2 S : Option Nat) : List Event :=
  lateScanEvents data.motion_trajectory M1 M2 S ++ data.collision.map collisionEvent

/-- `LateScenarioQAGenerator.analyze_scenario(data, setting)`.  The no-setting
path returns before the event analysis when no stationary object exists
(`events = []`). -/
def lateAnalyze (data : SimData) (setting : Option SettingType) : LateAnalysis :=
  let trajectory := data.motion_trajectory
  let collisions := data.collision
  match setting with
  | some st =>
    let object_info := identifyObjectsBySetting "late" trajectory (some st)
    let S :=
      if 1 ≤ object_info.static_objects.length then object_info.static_objects[0]? else none
    let M1 :=
      if 2 ≤ object_info.moving_objects.length then object_info.moving_objects[0]? else none
    let M2 :=
      if 2 ≤ object_info.moving_objects.length then object_info.moving_objects[1]? else none
    { M1 := M1, M2 := M2, S := S, events := lateEvents data M1 M2 S,
      collision_info := collisions, added_static := object_info.added_static,
      added_moving := object_info.added_moving }
  | none =>
    let first_frame := (trajectory.headD ⟨[]⟩).objects
    let S := (first_frame.find?
        (fun o => decide (velocityMagnitudeSq o.velocity < 1/10000))).map
      (fun o => o.object_id)
    match S with
    | none =>
      { M1 := none, M2 := none, S := none, events := [], collision_info := collisions,
        added_static := [], added_moving := [] }
    | some s =>
      let M1 := match collisions with
        | [] => none
        | c :: _ => c.object_ids.find? (fun j => decide (j ≠ s))
      let M2 := (first_frame.find? (fun o =>
          decide (1/10000 < velocityMagnitudeSq o.velocity) &&
          decide (some o.object_id ≠ M1) && decide (o.object_id ≠ s))).map
        (fun o => o.object_id)
      { M1 := M1, M2 := M2, S := some s, events := lateEvents data M1 M2 (some s),
        collision_info := collisions, added_static := [], added_moving := [] }

/-- One frame of `_analyze_early_events`: M1-towards-S1, M2-towards-S2,
S1-starts-moving, S2-starts-moving checks, in source order. -/
def earlyFrameEvents (trajectory : List Frame) (M1 M2 S1 S2 : Option Nat) (i : Nat) :
    List Event :=
  let objs := (trajectory.getD i ⟨[]⟩).objects
  movingTowardsCheck objs i M1 S1 ++ movingTowardsCheck objs i M2 S2 ++
    startMovingCheck trajectory objs i S1 ++ startMovingCheck trajectory objs i S2

/-- The frame-scan portion of `_analyze_early_events`. -/
def earlyScanEvents (trajectory : List Frame) (M1 M2 S1 S2 : Option Nat) : List Event :=
  (List.range trajectory.length).flatMap (earlyFrameEvents trajectory M1 M2 S1 S2)

/-- `_analyze_early_events`: the frame scan followed by the appended collision
events. -/
def earlyEvents (data : SimData) (M1 M2 S1 S2 : Option Nat) : List Event :=
  earlyScanEvents data.motion_trajectory M1 M2 S1 S2 ++ data.collision.map collisionEvent

/-- The `s1_final_state` computation of `_analyze_early_events`: for
trajectories longer than 10 frames, count the last five frames where `S1`
moves faster than `0.01` (squared `1/10000`). -/
def earlyS1FinalState (trajectory : List Frame) (S1 : Option Nat) : String :=
  match S1 with
  | some s1 =>
    if 10 < trajectory.length then
      let final_frames := trajectory.drop (trajectory.length - 5)
      let cnt := (final_frames.filter (fun fr =>
        match lookupObj fr.objects s1 with
        | some o => decide (1/10000 < velocityMagnitudeSq o.velocity)
        | none => false)).length
      if 3 ≤ cnt then "moving" else "stationary"
    else "unknown"
  | none => "unknown"

/-- The moving–static collision filter of `early.py`'s no-setting path:
keep collisions with exactly two participants, one initially moving and one
initially stationary. -/
def msFilter (moving static : List Nat) (cs : List Collision) : List Collision :=
  cs.filter (fun c => match c.object_ids with
    | [a, b] =>
      (decide (a ∈ moving) && decide (b ∈ static)) ||
        (decide (b ∈ moving) && decide (a ∈ static))
    | _ => false)

/-- The candidate loop of `early.py`'s no-setting path over adjacent
moving–static collision pairs, returning `(M1, S1, M2, S2)` for the first
pair passing the uniqueness, presence, approach, collinearity and
between-ness checks.  The two numpy eps-tests `are_collinear` and
`is_between` compare sums of square roots and are abstracted as the Boolean
oracle parameters `col` and `btw` (every theorem below holds for all
oracles); the source indexes `object_ids[0]`/`[1]`, valid by the length-two
filter, embedded as `getD` with default `0`. -/
def earlyScanPairs (ff : List ObjState) (mv st : List Nat)
    (col btw : Vec3 → Vec3 → Vec3 → Bool) : List Collision → Option (Nat × Nat × Nat × Nat)
  | c1 :: c2 :: rest =>
    let a1 := c1.object_ids.getD 0 0
    let b1 := c1.object_ids.getD 1 0
    let a2 := c2.object_ids.getD 0 0
    let b2 := c2.object_ids.getD 1 0
    let m1 := if a1 ∈ mv then a1 else b1
    let s1 := if a1 ∈ st then a1 else b1
    let m2 := if a2 ∈ mv then a2 else b2
    let s2 := if a2 ∈ st then a2 else b2
    let ok :=
      decide (m1 ≠ m2) && decide (s1 ≠ s2) &&
        (match lookupObj ff m1, lookupObj ff s1, lookupObj ff m2, lookupObj ff s2 with
         | some m1o, some s1o, some m2o, some s2o =>
           isMovingTowards m1o.location m1o.velocity s1o.location s1o.velocity &&
           isMovingTowards m2o.location m2o.velocity s2o.location s2o.velocity &&
           col m2o.location s2o.location s1o.location &&
           btw m2o.location s2o.location s1o.location
         | _, _, _, _ => false)
    if ok then some (m1, s1, m2, s2) else earlyScanPairs ff mv st col btw (c2 :: rest)
  | _ => none

/-- `EarlyScenarioQAGenerator.analyze_scenario(data, setting)`, with the two
numpy geometric tests abstracted as oracles.  Early returns (guards) leave
`events = []`; the source leaves `s1_final_state` unset on the early return,
embedded as the extractor's initial `"unknown"`. -/
def earlyAnalyze (col btw : Vec3 → Vec3 → Vec3 → Bool) (data : SimData)
    (setting : Option SettingType) : EarlyAnalysis :=
  let trajectory := data.motion_trajectory
  let collisions := data.collision
  match setting with
  | some st =>
    let object_info := identifyObjectsBySetting "early" trajectory (some st)
    let S1 :=
      if 2 ≤ object_info.static_objects.length then object_info.static_objects[0]? else none
    let S2 :=
      if 2 ≤ object_info.static_objects.length then object_info.static_objects[1]? else none
    let M1 :=
      if 2 ≤ object_info.moving_objects.length then object_info.moving_objects[0]? else none
    let M2 :=
      if 2 ≤ object_info.moving_objects.length then object_info.moving_objects[1]? else none
    { M1 := M1, M2 := M2, S1 := S1, S2 := S2, events := earlyEvents data M1 M2 S1 S2,
      collision_info := collisions, collision_sequence := [],
      s1_final_state := earlyS1FinalState trajectory S1,
      added_static := object_info.added_static, added_moving := object_info.added_moving }
  | none =>
    let first_frame := (trajectory.headD ⟨[]⟩).objects
    let static_objects := (classifyFirstFrame first_frame).1
    let moving_objects := (classifyFirstFrame first_frame).2
    if static_objects.length < 2 ∨ moving_objects.length < 2 then
      { M1 := none, M2 := none, S1 := none, S2 := none, events := [],
        collision_info := collisions, collision_sequence := [],
        s1_final_state := "unknown", added_static := [], added_moving := [] }
    else
      let collision_sequence := sortCollisionsByFrame collisions
      let ms := msFilter moving_objects static_objects collision_sequence
      let roles : Option Nat × Option Nat × Option Nat × Option Nat :=
        if 2 ≤ ms.length then
          match earlyScanPairs first_frame moving_objects static_objects col btw ms with
          | some (m1, s1, m2, s2) => (some m1, some m2, some s1, some s2)
          | none =>
            match ms with
            | f :: s :: _ =>
              let a1 := f.object_ids.getD 0 0
              let b1 := f.object_ids.getD 1 0
              let a2 := s.object_ids.getD 0 0
              let b2 := s.object_ids.getD 1 0
              (some (if a1 ∈ moving_objects then a1 else b1),
               some (if a2 ∈ moving_objects then a2 else b2),
               some (if a1 ∈ static_objects then a1 else b1),
               some (if a2 ∈ static_objects then a2 else b2))
            | _ => (none, none, none, none)
        else (none, none, none, none)
      { M1 := roles.1, M2 := roles.2.1, S1 := roles.2.2.1, S2 := roles.2.2.2,
        events := earlyEvents data roles.1 roles.2.1 roles.2.2.1 roles.2.2.2,
        collision_info := collisions, collision_sequence := collision_sequence,
        s1_final_state := earlyS1FinalState trajectory roles.2.2.1,
        added_static := [], added_moving := [] }

/-- A `trajectory_deviation` event (`double.py`; the numeric
`direction_change` payload is omitted like the other numeric payloads). -/
def deviationEvent (i m2 : Nat) : Event :=
  { etype := "trajectory_deviation", frame := i, subject := some m2,
    description := "Object " ++ toString m2 ++ " deviates from its original trajectory" }

/-- The direction-change test of `_analyze_double_events`: both speeds above
`0.1` (squared `1/100`) and normalized dot product below `0.5`.  Squared:
for positive norms, `dot/(|c||p|) < 1/2` iff `dot < 0` or
`4 dot^2 < |c|^2 |p|^2`. -/
def dirChangeCond (c p : Vec3) : Bool :=
  decide (1/100 < velocityMagnitudeSq c) && decide (1/100 < velocityMagnitudeSq p) &&
    (decide (dot3 c p < 0) ||
      decide (4 * (dot3 c p) ^ 2 < velocityMagnitudeSq c * velocityMagnitudeSq p))

/-- One step of `_analyze_double_events`' frame loop, threading the one-shot
`m2_trajectory_changed` latch (which also gates the M2-towards-M1 check):
M1-towards-S, M2-towards-M1, M3-towards-M2, the deviation check,
S-starts-moving, in source order. -/
def doubleFrameStep (trajectory : List Frame) (M1 M2 M3 S : Option Nat)
    (acc : List Event × Bool) (i : Nat) : List Event × Bool :=
  let objs := (trajectory.getD i ⟨[]⟩).objects
  let ev1 := movingTowardsCheck objs i M1 S
  let ev2 := if acc.2 then [] else movingTowardsCheck objs i M2 M1
  let ev3 := movingTowardsCheck objs i M3 M2
  let dv :=
    match M2 with
    | some m2 =>
      if 0 < i then
        match lookupObj objs m2 with
        | some mo =>
          match lookupObj ((trajectory.getD (i - 1) ⟨[]⟩).objects) m2 with
          | some po =>
            if dirChangeCond mo.velocity po.velocity ∧ ¬ acc.2 then
              ([deviationEvent i m2], true)
            else ([], acc.2)
          | none => ([], acc.2)
        | none => ([], acc.2)
      else ([], acc.2)
    | none => ([], acc.2)
  let ev5 := startMovingCheck trajectory objs i S
  (acc.1 ++ ev1 ++ ev2 ++ ev3 ++ dv.1 ++ ev5, dv.2)

/-- The frame-scan portion of `_analyze_double_events`. -/
def doubleScanEvents (trajectory : List Frame) (M1 M2 M3 S : Option Nat) : List Event :=
  ((List.range trajectory.length).foldl (doubleFrameStep trajectory M1 M2 M3 S)
    ([], false)).1

/-- The final `m2_trajectory_changed` latch value, reported as
`trajectory_deviation`. -/
def doubleDeviationFlag (trajectory : List Frame) (M1 M2 M3 S : Option Nat) : Bool :=
  ((List.range trajectory.length).foldl (doubleFrameStep trajectory M1 M2 M3 S)
    ([], false)).2

/-- `_analyze_double_events`: the frame scan followed by the appended
collision events. -/
def doubleEvents (data : SimData) (M1 M2 M3 S : Option Nat) : List Event :=
  doubleScanEvents data.motion_trajectory M1 M2 M3 S ++ data.collision.map collisionEvent

/-- `_check_moving_towards_before_collision(trajectory, obj_id, target_id,
collision_frame)`: any of the up-to-five frames before the collision where
both objects appear and `obj` approaches `target` (a `None` target fails the
presence test).  The source indexes `trajectory[i]`; the embedding reads
with an empty-frame default. -/
def checkMovingTowardsBeforeCollision (trajectory : List Frame) (obj_id : Nat)
    (target : Option Nat) (cf : Nat) : Bool :=
  match target with
  | none => false
  | some tid =>
    ((List.range cf).drop (cf - min 5 cf)).any (fun i =>
      let objs := (trajectory.getD i ⟨[]⟩).objects
      match lookupObj objs obj_id, lookupObj objs tid with
      | some o, some t => isMovingTowards o.location o.velocity t.location t.velocity
      | _, _ => false)

/-- `DoubleScenarioQAGenerator.analyze_scenario(data, setting)`.  The
no-setting guard returns before the event analysis (`events = []`,
`trajectory_deviation = false`). -/
def doubleAnalyze (data : SimData) (setting : Option SettingType) : DoubleAnalysis :=
  let trajectory := data.motion_trajectory
  let collisions := data.collision
  match setting with
  | some st =>
    let object_info := identifyObjectsBySetting "double" trajectory (some st)
    let S :=
      if 1 ≤ object_info.static_objects.length then object_info.static_objects[0]? else none
    let M1 :=
      if 3 ≤ object_info.moving_objects.length then object_info.moving_objects[0]? else none
    let M2 :=
      if 3 ≤ object_info.moving_objects.length then object_info.moving_objects[1]? else none
    let M3 :=
      if 3 ≤ object_info.moving_objects.length then object_info.moving_objects[2]? else none
    { M1 := M1, M2 := M2, M3 := M3, S := S, events := doubleEvents data M1 M2 M3 S,
      collision_info := collisions, collision_sequence := [],
      trajectory_deviation := doubleDeviationFlag trajectory M1 M2 M3 S,
      added_static := object_info.added_static, added_moving := object_info.added_moving }
  | none =>
    let first_frame := (trajectory.headD ⟨[]⟩).objects
    let static_objects := (classifyFirstFrame first_frame).1
    let moving_objects := (classifyFirstFrame first_frame).2
    if static_objects.length < 1 ∨ moving_objects.length < 3 then
      { M1 := none, M2 := none, M3 := none, S := none, events := [],
        collision_info := collisions, collision_sequence := [],
        trajectory_deviation := false, added_static := [], added_moving := [] }
    else
      let s := static_objects.getD 0 0
      let collision_sequence := sortCollisionsByFrame collisions
      let roles : Option Nat × Option Nat × Option Nat :=
        if 2 ≤ collision_sequence.length then
          let first_c := collision_sequence.getD 0 ⟨[], 0, ⟨0, 0, 0⟩⟩
          let second_c := collision_sequence.getD 1 ⟨[], 0, ⟨0, 0, 0⟩⟩
          let M1 := second_c.object_ids.find? (fun j => decide (j ≠ s))
          let collision_objects := first_c.object_ids
          let remaining := moving_objects.filter (fun j => decide (some j ≠ M1))
          if collision_objects.length = 2 then
            let cands := collision_objects.foldl
              (fun (acc : Option Nat × Option Nat) obj_id =>
                if obj_id ∈ remaining then
                  if checkMovingTowardsBeforeCollision trajectory obj_id M1
                      first_c.frame_id then
                    (some obj_id, acc.2)
                  else (acc.1, some obj_id)
                else acc)
              (none, none)
            match cands.1 with
            | some m2c =>
              (M1, some m2c,
               match cands.2 with
               | some m3c => some m3c
               | none => some (if collision_objects.getD 0 0 = m2c
                   then collision_objects.getD 1 0 else collision_objects.getD 0 0))
            | none =>
              let m2 := if collision_objects.getD 0 0 ∈ remaining
                then collision_objects.getD 0 0 else collision_objects.getD 1 0
              (M1, some m2, some (if collision_objects.getD 0 0 = m2
                then collision_objects.getD 1 0 else collision_objects.getD 0 0))
          else (M1, none, none)
        else (none, none, none)
      { M1 := roles.1, M2 := roles.2.1, M3 := roles.2.2, S := some s,
        events := doubleEvents data roles.1 roles.2.1 roles.2.2 (some s),
        collision_info := collisions, collision_sequence := collision_sequence,
        trajectory_deviation :=
          doubleDeviationFlag trajectory roles.1 roles.2.1 roles.2.2 (some s),
        added_static := [], added_moving := [] }

theorem lateFrameEvents_frame (trajectory : List Frame) (M1 M2 S : Option Nat)
    (i : Nat) (e : Event) (he : e ∈ lateFrameEvents trajectory M1 M2 S i) :
    e.frame = i := by
  simp only [lateFrameEvents, List.mem_append] at he
  rcases he with (he | he) | he
  · exact movingTowardsCheck_frame _ _ _ _ _ he
  · exact movingTowardsCheck_frame _ _ _ _ _ he
  · exact startMovingCheck_frame _ _ _ _ _ he

theorem earlyFrameEvents_frame (trajectory : List Frame) (M1 M2 S1 S2 : Option Nat)
    (i : Nat) (e : Event) (he : e ∈ earlyFrameEvents trajectory M1 M2 S1 S2 i) :
    e.frame = i := by
  simp only [earlyFrameEvents, List.mem_append] at he
  rcases he with ((he | he) | he) | he
  · exact movingTowardsCheck_frame _ _ _ _ _ he
  · exact movingTowardsCheck_frame _ _ _ _ _ he
  · exact startMovingCheck_frame _ _ _ _ _ he
  · exact startMovingCheck_frame _ _ _ _ _ he

theorem doubleFrameStep_shape (t : List Frame) (M1 M2 M3 S : Option Nat)
    (acc : List Event × Bool) (i : Nat) :
    ∃ new, (doubleFrameStep t M1 M2 M3 S acc i).1 = acc.1 ++ new ∧
      ∀ e ∈ new, e.frame = i := by
  simp only [doubleFrameStep]
  repeat' split
  all_goals
    refine ⟨_, by simp only [List.append_assoc]; rfl, ?_⟩
  all_goals
    intro e he
  all_goals
    rcases List.mem_append.mp he with he | he
  all_goals
    try rcases List.mem_append.mp he with he | he
  all_goals
    try rcases List.mem_append.mp he with he | he
  all_goals
    try rcases List.mem_append.mp he with he | he
  all_goals
    first
      | exact movingTowardsCheck_frame _ _ _ _ _ he
      | exact startMovingCheck_frame _ _ _ _ _ he
      | (rcases List.mem_singleton.mp he with rfl; rfl)
      | exact absurd he (List.not_mem_nil e)

theorem lateScanEvents_sorted (t : List Frame) (M1 M2 S : Option Nat) :
    (lateScanEvents t M1 M2 S).Pairwise (fun a b : Event => a.frame ≤ b.frame) :=
  pairwise_frame_flatMap _ (lateFrameEvents_frame t M1 M2 S) _
    (List.pairwise_le_range t.length)

theorem earlyScanEvents_sorted (t : List Frame) (M1 M2 S1 S2 : Option Nat) :
    (earlyScanEvents t M1 M2 S1 S2).Pairwise (fun a b : Event => a.frame ≤ b.frame) :=
  pairwise_frame_flatMap _ (earlyFrameEvents_frame t M1 M2 S1 S2) _
    (List.pairwise_le_range t.length)

theorem doubleScanEvents_sorted (t : List Frame) (M1 M2 M3 S : Option Nat) :
    (doubleScanEvents t M1 M2 M3 S).Pairwise (fun a b : Event => a.frame ≤ b.frame) :=
  pairwise_frame_foldl _ (doubleFrameStep_shape t M1 M2 M3 S) _
    (List.pairwise_le_range t.length) ([], false) (by simp) (by simp)

/-- C4 as amended: in every one of the six analyzers the frame-scan portion
of the event log is sorted in non-decreasing frame order, and the full event
log is exactly that sorted scan followed by one event per input collision,
appended in input order after the scan (hence the full log need not be
frame-sorted, as the counterexample shows). -/
theorem C4_event_order_amended :
    (∀ (t : List Frame) (M1 M2 S : Option Nat),
      (overdetScanEvents t M1 M2 S).Pairwise (fun a b : Event => a.frame ≤ b.frame)) ∧
    (∀ (t : List Frame) (M1 M2 S : Option Nat),
      (switchScanEvents t M1 M2 S).Pairwise (fun a b : Event => a.frame ≤ b.frame)) ∧
    (∀ (t : List Frame) (M1 M2 S2 : Option Nat),
      (bogusScanEvents t M1 M2 S2).Pairwise (fun a b : Event => a.frame ≤ b.frame)) ∧
    (∀ (data : SimData) (M1 M2 S : Option Nat),
      overdetEvents data M1 M2 S =
        overdetScanEvents data.motion_trajectory M1 M2 S ++
          data.collision.map collisionEvent) ∧
    (∀ (data : SimData) (M1 M2 S : Option Nat),
      switchEvents data M1 M2 S =
        switchScanEvents data.motion_trajectory M1 M2 S ++
          data.collision.map collisionEvent) ∧
    (∀ (data : SimData) (M1 M2 S1 S2 : Option Nat),
      bogusEvents data M1 M2 S1 S2 =
        bogusScanEvents data.motion_trajectory M1 M2 S2 ++
          data.collision.map collisionEvent) ∧
    (∀ (t : List Frame) (M1 M2 S : Option Nat),
      (lateScanEvents t M1 M2 S).Pairwise (fun a b : Event => a.frame ≤ b.frame)) ∧
    (∀ (t : List Frame) (M1 M2 S1 S2 : Option Nat),
      (earlyScanEvents t M1 M2 S1 S2).Pairwise (fun a b : Event => a.frame ≤ b.frame)) ∧
    (∀ (t : List Frame) (M1 M2 M3 S : Option Nat),
      (doubleScanEvents t M1 M2 M3 S).Pairwise (fun a b : Event => a.frame ≤ b.frame)) ∧
    (∀ (data : SimData) (M1 M2 S : Option Nat),
      lateEvents data M1 M2 S =
        lateScanEvents data.motion_trajectory M1 M2 S ++
          data.collision.map collisionEvent) ∧
    (∀ (data : SimData) (M1 M2 S1 S2 : Option Nat),
      earlyEvents data M1 M2 S1 S2 =
        earlyScanEvents data.motion_trajectory M1 M2 S1 S2 ++
          data.collision.map collisionEvent) ∧
    (∀ (data : SimData) (M1 M2 M3 S : Option Nat),
      doubleEvents data M1 M2 M3 S =
        doubleScanEvents data.motion_trajectory M1 M2 M3 S ++
          data.collision.map collisionEvent) :=
  ⟨overdetScanEvents_sorted, switchScanEvents_sorted, bogusScanEvents_sorted,
   fun _ _ _ _ => rfl, fun _ _ _ _ => rfl, fun _ _ _ _ _ => rfl,
   lateScanEvents_sorted, earlyScanEvents_sorted, doubleScanEvents_sorted,
   fun _ _ _ _ => rfl, fun _ _ _ _ _ => rfl, fun _ _ _ _ _ => rfl⟩

/-- C3 as amended: with a setting supplied, the switch, bogus, late, early
and double analyzers bind primary roles to exactly the first-N ids of the
Role identifier's sliced stationary/moving lists (unresolved when the slices
are too short); the overdetermination analyzer binds `S` the same way, but
overrides `M1` and `M2` with the first two entries of the sorted
deduplicated list of non-`S` participant ids drawn from all collisions
whenever that list has at least two entries, keeping the sliced ids only
otherwise. -/
theorem C3_role_binding_amended :
    (∀ (data : SimData) (st : SettingType),
      (switchAnalyze data (some st)).S =
        (if 1 ≤ (identifyObjectsBySetting "switch" data.motion_trajectory
              (some st)).static_objects.length
         then (identifyObjectsBySetting "switch" data.motion_trajectory
              (some st)).static_objects[0]?
         else none) ∧
      (switchAnalyze data (some st)).M1 =
        (if 2 ≤ (identifyObjectsBySetting "switch" data.motion_trajectory
              (some st)).moving_objects.length
         then (identifyObjectsBySetting "switch" data.motion_trajectory
              (some st)).moving_objects[0]?
         else none) ∧
      (switchAnalyze data (some st)).M2 =
        (if 2 ≤ (identifyObjectsBySetting "switch" data.motion_trajectory
              (some st)).moving_objects.length
         then (identifyObjectsBySetting "switch" data.motion_trajectory
              (some st)).moving_objects[1]?
         else none)) ∧
    (∀ (data : SimData) (st : SettingType),
      (bogusAnalyze data (some st)).S1 =
        (if 2 ≤ (identifyObjectsBySetting "bogus" data.motion_trajectory
              (some st)).static_objects.length
         then (identifyObjectsBySetting "bogus" data.motion_trajectory
              (some st)).static_objects[0]?
         else none) ∧
      (bogusAnalyze data (some st)).S2 =
        (if 2 ≤ (identifyObjectsBySetting "bogus" data.motion_trajectory
              (some st)).static_objects.length
         then (identifyObjectsBySetting "bogus" data.motion_trajectory
              (some st)).static_objects[1]?
         else none) ∧
      (bogusAnalyze data (some st)).M1 =
        (if 2 ≤ (identifyObjectsBySetting "bogus" data.motion_trajectory
              (some st)).moving_objects.length
         then (identifyObjectsBySetting "bogus" data.motion_trajectory
              (some st)).moving_objects[0]?
         else none) ∧
      (bogusAnalyze data (some st)).M2 =
        (if 2 ≤ (identifyObjectsBySetting "bogus" data.motion_trajectory
              (some st)).moving_objects.length
         then (identifyObjectsBySetting "bogus" data.motion_trajectory
              (some st)).moving_objects[1]?
         else none)) ∧
    (∀ (data : SimData) (st : Option SettingType) (s : Nat),
      (overdetAnalyze data st).S = some s →
      some s =
        (if 1 ≤ (identifyObjectsBySetting "overdetermination" data.motion_trajectory
              st).static_objects.length
         then (identifyObjectsBySetting "overdetermination" data.motion_trajectory
              st).static_objects[0]?
         else none) ∧
      (2 ≤ (overdetCollisionObjects data s).length →
        (overdetAnalyze data st).M1 = (overdetCollisionObjects data s)[0]? ∧
        (overdetAnalyze data st).M2 = (overdetCollisionObjects data s)[1]?) ∧
      (¬ 2 ≤ (overdetCollisionObjects data s).length →
        (overdetAnalyze data st).M1 =
          (if 2 ≤ (identifyObjectsBySetting "overdetermination" data.motion_trajectory
                st).moving_objects.length
           then (identifyObjectsBySetting "overdetermination" data.motion_trajectory
                st).moving_objects[0]?
           else none) ∧
        (overdetAnalyze data st).M2 =
          (if 2 ≤ (identifyObjectsBySetting "overdetermination" data.motion_trajectory
                st).moving_objects.length
           then (identifyObjectsBySetting "overdetermination" data.motion_trajectory
                st).moving_objects[1]?
           else none))) ∧
    (∀ (data : SimData) (st : SettingType),
      (lateAnalyze data (some st)).S =
        (if 1 ≤ (identifyObjectsBySetting "late" data.motion_trajectory
              (some st)).static_objects.length
         then (identifyObjectsBySetting "late" data.motion_trajectory
              (some st)).static_objects[0]?
         else none) ∧
      (lateAnalyze data (some st)).M1 =
        (if 2 ≤ (identifyObjectsBySetting "late" data.motion_trajectory
              (some st)).moving_objects.length
         then (identifyObjectsBySetting "late" data.motion_trajectory
              (some st)).moving_objects[0]?
         else none) ∧
      (lateAnalyze data (some st)).M2 =
        (if 2 ≤ (identifyObjectsBySetting "late" data.motion_trajectory
              (some st)).moving_objects.length
         then (identifyObjectsBySetting "late" data.motion_trajectory
              (some st)).moving_objects[1]?
         else none)) ∧
    (∀ (col btw : Vec3 → Vec3 → Vec3 → Bool) (data : SimData) (st : SettingType),
      (earlyAnalyze col btw data (some st)).S1 =
        (if 2 ≤ (identifyObjectsBySetting "early" data.motion_trajectory
              (some st)).static_objects.length
         then (identifyObjectsBySetting "early" data.motion_trajectory
              (some st)).static_objects[0]?
         else none) ∧
      (earlyAnalyze col btw data (some st)).S2 =
        (if 2 ≤ (identifyObjectsBySetting "early" data.motion_trajectory
              (some st)).static_objects.length
         then (identifyObjectsBySetting "early" data.motion_trajectory
              (some st)).static_objects[1]?
         else none) ∧
      (earlyAnalyze col btw data (some st)).M1 =
        (if 2 ≤ (identifyObjectsBySetting "early" data.motion_trajectory
              (some st)).moving_objects.length
         then (identifyObjectsBySetting "early" data.motion_trajectory
              (some st)).moving_objects[0]?
         else none) ∧
      (earlyAnalyze col btw data (some st)).M2 =
        (if 2 ≤ (identifyObjectsBySetting "early" data.motion_trajectory
              (some st)).moving_objects.length
         then (identifyObjectsBySetting "early" data.motion_trajectory
              (some st)).moving_objects[1]?
         else none)) ∧
    (∀ (data : SimData) (st : SettingType),
      (doubleAnalyze data (some st)).S =
        (if 1 ≤ (identifyObjectsBySetting "double" data.motion_trajectory
              (some st)).static_objects.length
         then (identifyObjectsBySetting "double" data.motion_trajectory
              (some st)).static_objects[0]?
         else none) ∧
      (doubleAnalyze data (some st)).M1 =
        (if 3 ≤ (identifyObjectsBySetting "double" data.motion_trajectory
              (some st)).moving_objects.length
         then (identifyObjectsBySetting "double" data.motion_trajectory
              (some st)).moving_objects[0]?
         else none) ∧
      (doubleAnalyze data (some st)).M2 =
        (if 3 ≤ (identifyObjectsBySetting "double" data.motion_trajectory
              (some st)).moving_objects.length
         then (identifyObjectsBySetting "double" data.motion_trajectory
              (some st)).moving_objects[1]?
         else none) ∧
      (doubleAnalyze data (some st)).M3 =
        (if 3 ≤ (identifyObjectsBySetting "double" data.motion_trajectory
              (some st)).moving_objects.length
         then (identifyObjectsBySetting "double" data.motion_trajectory
              (some st)).moving_objects[2]?
         else none)) := by
  refine ⟨fun data st => ⟨rfl, rfl, rfl⟩, fun data st => ⟨rfl, rfl, rfl, rfl⟩, ?_,
    fun data st => ⟨rfl, rfl, rfl⟩, fun col btw data st => ⟨rfl, rfl, rfl, rfl⟩,
    fun data st => ⟨rfl, rfl, rfl, rfl⟩⟩
  intro data st s hS
  simp only [overdetAnalyze, overdetCollisionObjects] at hS ⊢
  split at hS
  · simp at hS
  · rename_i s2 heq
    simp only at hS
    cases hS
    refine ⟨heq.symm, ?_, ?_⟩
    · intro h2
      refine ⟨?_, ?_⟩ <;> simp only [if_pos h2]
    · intro h2
      refine ⟨?_, ?_⟩ <;> simp only [if_neg h2]

/-- Witness for the amended C3 at a concrete input: the overdetermination
analyzer on `c3Data` with no setting binds `S = 0` and, since two non-`S`
collision participants exist, `M1`/`M2` to them. -/
theorem C3_witness :
    some 0 =
      (if 1 ≤ (identifyObjectsBySetting "overdetermination" c3Data.motion_trajectory
            none).static_objects.length
       then (identifyObjectsBySetting "overdetermination" c3Data.motion_trajectory
            none).static_objects[0]?
       else none) ∧
    (2 ≤ (overdetCollisionObjects c3Data 0).length →
      (overdetAnalyze c3Data none).M1 = (overdetCollisionObjects c3Data 0)[0]? ∧
      (overdetAnalyze c3Data none).M2 = (overdetCollisionObjects c3Data 0)[1]?) ∧
    (¬ 2 ≤ (overdetCollisionObjects c3Data 0).length →
      (overdetAnalyze c3Data none).M1 =
        (if 2 ≤ (identifyObjectsBySetting "overdetermination" c3Data.motion_trajectory
              none).moving_objects.length
         then (identifyObjectsBySetting "overdetermination" c3Data.motion_trajectory
              none).moving_objects[0]?
         else none) ∧
      (overdetAnalyze c3Data none).M2 =
        (if 2 ≤ (identifyObjectsBySetting "overdetermination" c3Data.motion_trajectory
              none).moving_objects.length
         then (identifyObjectsBySetting "overdetermination" c3Data.motion_trajectory
              none).moving_objects[1]?
         else none)) :=
  C3_role_binding_amended.2.2.1 c3Data none 0
    (by simp [overdetAnalyze, c3Data, c3Data_identify_none])

